import Mathlib

/-!
Verification development for the phishing-detection analysis pipeline in
`7_anti_phishing.py`.  The Python code is shallowly embedded: finite
floats are modelled as exact rationals (`Rat`), float *values* produced by
`float(...)` as `PFloat` (finite rational, signed infinity, or NaN),
Python exceptions as `Option`/`none`, JSON values as the inductive `JVal`,
and the `json.loads` library call as an executable strict JSON parser
(`jsonLoads`).  Modelling notes:
`str.lower`, `str.strip`, and regex character classes are modelled on their
ASCII behaviour; `json.loads` is modelled on finite JSON numbers (the
non-standard `NaN`/`Infinity` constants and lone surrogate escapes are out
of the modelled domain).
-/

set_option maxRecDepth 100000

/-- The apostrophe (single-quote) character, U+0027. -/
def aposChar : Char := Char.ofNat 39

/-- Model of Python `str.lower` on a character (ASCII range). -/
def pyLowerChar (c : Char) : Char :=
  if 65 ≤ c.toNat ∧ c.toNat ≤ 90 then Char.ofNat (c.toNat + 32) else c

/-- Model of Python `str.lower` (ASCII range). -/
def pyLower (s : String) : String := String.mk (s.data.map pyLowerChar)

/-- Model of the Python whitespace class used by `str.strip` and `\s`
(ASCII part: space, tab, newline, carriage return, vertical tab, form feed). -/
def pyWs (c : Char) : Bool :=
  c = ' ' || c = Char.ofNat 9 || c = Char.ofNat 10 || c = Char.ofNat 13 ||
  c = Char.ofNat 11 || c = Char.ofNat 12

/-- Model of Python `str.strip()` (default whitespace stripping). -/
def pyStrip (s : String) : String :=
  String.mk (((s.data.dropWhile pyWs).reverse.dropWhile pyWs).reverse)

/-- Does `needle` occur as a contiguous sublist of `hay`?  Models Python
`needle in hay` on strings. -/
def containsSub (needle : List Char) : List Char → Bool
  | [] => needle.isEmpty
  | c :: rest => (needle.isPrefixOf (c :: rest)) || containsSub needle rest

/-- JSON values, the model of the Python objects produced by `json.loads`. -/
inductive JVal where
  | null : JVal
  | bool (b : Bool) : JVal
  | num (q : Rat) : JVal
  | str (s : String) : JVal
  | arr (xs : List JVal) : JVal
  | obj (kvs : List (String × JVal)) : JVal

/-- JSON whitespace characters skipped by the `json.loads` scanner. -/
def jWs (c : Char) : Bool :=
  c = ' ' || c = Char.ofNat 9 || c = Char.ofNat 10 || c = Char.ofNat 13

/-- Skip JSON whitespace. -/
def skipJWs : List Char → List Char
  | [] => []
  | c :: rest => if jWs c then skipJWs rest else c :: rest

/-- Value of a single hexadecimal digit character. -/
def hexVal (c : Char) : Option Nat :=
  if 48 ≤ c.toNat ∧ c.toNat ≤ 57 then some (c.toNat - 48)
  else if 97 ≤ c.toNat ∧ c.toNat ≤ 102 then some (c.toNat - 87)
  else if 65 ≤ c.toNat ∧ c.toNat ≤ 70 then some (c.toNat - 55)
  else none

/-- Value of a four-hex-digit group. -/
def hex4 (a b c d : Char) : Option Nat :=
  match hexVal a, hexVal b, hexVal c, hexVal d with
  | some va, some vb, some vc, some vd => some (((va * 16 + vb) * 16 + vc) * 16 + vd)
  | _, _, _, _ => none

/-- Prepend a decoded character to a string-parser result. -/
def consCh (c : Char) (o : Option (List Char × List Char)) : Option (List Char × List Char) :=
  o.map fun p => (c :: p.1, p.2)

/-- Model of the `json.loads` string scanner, applied to the characters
after the opening quote.  Returns the decoded contents and the characters
after the closing quote.  Decodes the short escapes and `\uXXXX` (with
surrogate pairs); unescaped control characters are rejected (strict mode).
The fuel argument only bounds recursion depth; one unit is spent per
decoded character, so `cs.length` is always sufficient. -/
def parseStrS : Nat → List Char → Option (List Char × List Char)
  | 0, _ => none
  | fuel + 1, cs =>
    match cs with
    | [] => none
    | c :: rest =>
      if c = '"' then some ([], rest)
      else if c = '\\' then
        match rest with
        | [] => none
        | e :: r2 =>
          if e = '"' then consCh '"' (parseStrS fuel r2)
          else if e = '\\' then consCh '\\' (parseStrS fuel r2)
          else if e = '/' then consCh '/' (parseStrS fuel r2)
          else if e = 'b' then consCh (Char.ofNat 8) (parseStrS fuel r2)
          else if e = 'f' then consCh (Char.ofNat 12) (parseStrS fuel r2)
          else if e = 'n' then consCh (Char.ofNat 10) (parseStrS fuel r2)
          else if e = 'r' then consCh (Char.ofNat 13) (parseStrS fuel r2)
          else if e = 't' then consCh (Char.ofNat 9) (parseStrS fuel r2)
          else if e = 'u' then
            match r2 with
            | a :: b :: c3 :: d :: r3 =>
              match hex4 a b c3 d with
              | none => none
              | some n =>
                if n < 0xd800 then consCh (Char.ofNat n) (parseStrS fuel r3)
                else if n ≤ 0xdbff then
                  match r3 with
                  | b1 :: u2 :: a2 :: b2 :: c4 :: d2 :: r4 =>
                    if b1 = '\\' ∧ u2 = 'u' then
                      match hex4 a2 b2 c4 d2 with
                      | some n2 =>
                        if 0xdc00 ≤ n2 ∧ n2 ≤ 0xdfff then
                          consCh (Char.ofNat (0x10000 + (n - 0xd800) * 0x400 + (n2 - 0xdc00)))
                            (parseStrS fuel r4)
                        else none
                      | none => none
                    else none
                  | _ => none
                else if n ≤ 0xdfff then none
                else consCh (Char.ofNat n) (parseStrS fuel r3)
            | _ => none
          else none
      else if c.toNat < 0x20 then none
      else consCh c (parseStrS fuel rest)

/-- The string scanner with its default fuel. -/
def parseStrAux (cs : List Char) : Option (List Char × List Char) :=
  parseStrS cs.length cs

/-- Numeric value of a list of decimal digit characters. -/
def digitsVal (ds : List Char) : Nat :=
  ds.foldl (fun acc c => acc * 10 + (c.toNat - 48)) 0

/-- Is the character an ASCII decimal digit? -/
def isDig (c : Char) : Bool := 48 ≤ c.toNat && c.toNat ≤ 57

/-- Model of the `json.loads` number grammar: optional minus sign, an
integer part without leading zeros, an optional fraction, an optional
exponent.  Returns the exact rational value and the remaining characters. -/
def parseNum (cs : List Char) : Option (Rat × List Char) :=
  let (neg, cs1) : Bool × List Char :=
    match cs with
    | c :: rest => if c = '-' then (true, rest) else (false, cs)
    | [] => (false, cs)
  let ds := cs1.takeWhile isDig
  let cs2 := cs1.dropWhile isDig
  if ds.isEmpty then none
  else if ds.length > 1 ∧ ds.headD '0' = '0' then none
  else
    let fracRes : Option (List Char × List Char) :=
      match cs2 with
      | c :: rest =>
        if c = '.' then
          let fs := rest.takeWhile isDig
          if fs.isEmpty then none else some (fs, rest.dropWhile isDig)
        else some ([], cs2)
      | [] => some ([], cs2)
    match fracRes with
    | none => none
    | some (fr, cs3) =>
      let (ex, cs4) : Option (Bool × List Char) × List Char :=
        match cs3 with
        | c :: rest =>
          if c = 'e' ∨ c = 'E' then
            match rest with
            | c2 :: rest2 =>
              if c2 = '+' then (some (false, rest2.takeWhile isDig), rest2.dropWhile isDig)
              else if c2 = '-' then (some (true, rest2.takeWhile isDig), rest2.dropWhile isDig)
              else (some (false, rest.takeWhile isDig), rest.dropWhile isDig)
            | [] => (some (false, []), [])
          else (none, cs3)
        | [] => (none, cs3)
      match ex with
      | some (_, []) => none
      | some (eneg, eds) =>
        let mant : Rat := (digitsVal (ds ++ fr) : Rat) / ((10 : Rat) ^ fr.length)
        let scaled : Rat :=
          if eneg then mant / ((10 : Rat) ^ digitsVal eds)
          else mant * ((10 : Rat) ^ digitsVal eds)
        some (if neg then -scaled else scaled, cs4)
      | none =>
        let mant : Rat := (digitsVal (ds ++ fr) : Rat) / ((10 : Rat) ^ fr.length)
        some (if neg then -mant else mant, cs4)

/-- Parser modes: a JSON value, the members of an object after `{`, or the
items of an array after `[`. -/
inductive PMode where
  | val : PMode
  | members : PMode
  | items : PMode

/-- Parser outputs corresponding to the three modes. -/
inductive POut where
  | pv (j : JVal) : POut
  | pm (l : List (String × JVal)) : POut
  | pi (l : List JVal) : POut

/-- Model of the `json.loads` recursive-descent scanner.  The fuel
argument bounds recursion depth; `jsonLoads` supplies enough fuel for any
input.  Modelled from the strict JSON grammar implemented by Python's
`json` module (double-quoted strings only, no trailing commas, object
keys must be strings). -/
def parseF : Nat → PMode → List Char → Option (POut × List Char)
  | 0, _, _ => none
  | fuel + 1, .val, cs =>
    match skipJWs cs with
    | '{' :: rest =>
      (match skipJWs rest with
       | '}' :: r => some (.pv (.obj []), r)
       | _ =>
         match parseF fuel .members rest with
         | some (.pm ms, r) => some (.pv (.obj ms), r)
         | _ => none)
    | '[' :: rest =>
      (match skipJWs rest with
       | ']' :: r => some (.pv (.arr []), r)
       | _ =>
         match parseF fuel .items rest with
         | some (.pi vs, r) => some (.pv (.arr vs), r)
         | _ => none)
    | '"' :: rest => (parseStrAux rest).map fun p => (.pv (.str (String.mk p.1)), p.2)
    | 't' :: 'r' :: 'u' :: 'e' :: rest => some (.pv (.bool true), rest)
    | 'f' :: 'a' :: 'l' :: 's' :: 'e' :: rest => some (.pv (.bool false), rest)
    | 'n' :: 'u' :: 'l' :: 'l' :: rest => some (.pv .null, rest)
    | c :: rest =>
      if c = '-' ∨ isDig c then (parseNum (c :: rest)).map fun p => (.pv (.num p.1), p.2)
      else none
    | [] => none
  | fuel + 1, .members, cs =>
    match skipJWs cs with
    | '"' :: rest =>
      (match parseStrAux rest with
       | some (k, r1) =>
         (match skipJWs r1 with
          | ':' :: r2 =>
            (match parseF fuel .val r2 with
             | some (.pv v, r3) =>
               (match skipJWs r3 with
                | ',' :: r4 =>
                  (match parseF fuel .members r4 with
                   | some (.pm ms, r5) => some (.pm ((String.mk k, v) :: ms), r5)
                   | _ => none)
                | '}' :: r4 => some (.pm [(String.mk k, v)], r4)
                | _ => none)
             | _ => none)
          | _ => none)
       | none => none)
    | _ => none
  | fuel + 1, .items, cs =>
    match parseF fuel .val cs with
    | some (.pv v, r) =>
      (match skipJWs r with
       | ',' :: r2 =>
         (match parseF fuel .items r2 with
          | some (.pi vs, r3) => some (.pi (v :: vs), r3)
          | _ => none)
       | ']' :: r2 => some (.pi [v], r2)
       | _ => none)
    | _ => none

/-- Model of `json.loads`: parse a whole string as a single JSON value,
allowing only whitespace after it. -/
def jsonLoads (s : String) : Option JVal :=
  match parseF (2 * s.data.length + 2) .val s.data with
  | some (.pv v, r) => if skipJWs r = [] then some v else none
  | _ => none

/-- Index of the first character satisfying `p`, if any. -/
def firstIdx (p : Char → Bool) : List Char → Option Nat
  | [] => none
  | c :: rest => if p c then some 0 else (firstIdx p rest).map (· + 1)

/-- Index of the last character satisfying `p`, if any. -/
def lastIdx (p : Char → Bool) (l : List Char) : Option Nat :=
  (firstIdx p l.reverse).map fun i => l.length - 1 - i

/-- Model of `re.search(r'({[\s\S]*})', text)`: the substring from the
first opening brace to the last closing brace, when the latter follows the
former. -/
def braceSub (t : String) : Option String :=
  match firstIdx (fun c => c = Char.ofNat 123) t.data,
        lastIdx (fun c => c = Char.ofNat 125) t.data with
  | some p, some q =>
    if p < q then some (String.mk ((t.data.drop p).take (q + 1 - p))) else none
  | _, _ => none

/-- Is the character in the Python regex `\w` class (ASCII part)? -/
def isWordChar (c : Char) : Bool :=
  c.isAlpha || isDig c || c = '_'

/-- Fuel-driven scan implementing `re.sub(r'(\w+):', r'"\1":', s)`: a
maximal run of word characters immediately followed by a colon is wrapped
in double quotes; scanning resumes after the colon. -/
def quoteKeysF : Nat → List Char → List Char
  | 0, l => l
  | _ + 1, [] => []
  | fuel + 1, c :: rest =>
    if isWordChar c then
      match List.dropWhile isWordChar rest with
      | ':' :: rest2 =>
        '"' :: c :: (List.takeWhile isWordChar rest ++ '"' :: ':' :: quoteKeysF fuel rest2)
      | h :: rest3 => c :: (List.takeWhile isWordChar rest ++ h :: quoteKeysF fuel rest3)
      | [] => c :: List.takeWhile isWordChar rest
    else c :: quoteKeysF fuel rest

/-- Model of the two textual repairs applied at the third recovery stage:
quote bare identifier keys, then replace single quotes by double quotes. -/
def repairJson (s : String) : String :=
  String.mk ((quoteKeysF s.data.length s.data).map fun c => if c = aposChar then '"' else c)

/-- The default `ParsedAnalysis` returned when every recovery stage fails
(`_extract_json`, lines 154-160). -/
def default_analysis : JVal :=
  .obj [("phishing_likelihood", .num 0.5),
        ("confidence", .num 0.3),
        ("insights", .arr [.str ("Parser error - couldn" ++ String.mk [aposChar] ++ "t extract analysis")]),
        ("reasoning", .str "Response format error"),
        ("recommended_action", .str "Manually review this email")]

/-- Model of `PhishingDetector._extract_json`: empty text yields the empty
object; otherwise try a direct parse, then the brace-delimited substring,
then the repaired substring, and finally fall back to `default_analysis`. -/
def extract_json (text : String) : JVal :=
  if text = "" then .obj []
  else
    match jsonLoads text with
    | some v => v
    | none =>
      match braceSub text with
      | none => default_analysis
      | some sub =>
        match jsonLoads sub with
        | some v => v
        | none =>
          match jsonLoads (repairJson sub) with
          | some v => v
          | none => default_analysis

/-- The three-valued risk enumeration (`RiskLevel` in the source). -/
inductive RiskLevel where
  | SAFE : RiskLevel
  | SUSPICIOUS : RiskLevel
  | DANGEROUS : RiskLevel
deriving DecidableEq

/-- The string value carried by each enum member in the source. -/
def RiskLevel.value : RiskLevel → String
  | .SAFE => "Safe"
  | .SUSPICIOUS => "Suspicious"
  | .DANGEROUS => "Dangerous"

/-- Last binding of a key in an association list; Python dicts built from
JSON keep the last occurrence of a duplicated key. -/
def lookupLast (k : String) : List (String × JVal) → Option JVal
  | [] => none
  | (k2, v) :: rest =>
    match lookupLast k rest with
    | some v2 => some v2
    | none => if k2 = k then some v else none

/-- Model of `analysis.get(key, default)`: raises (`none`) unless the
value is a dict. -/
def dictGet (v : JVal) (k : String) (d : JVal) : Option JVal :=
  match v with
  | .obj kvs => some ((lookupLast k kvs).getD d)
  | _ => none

/-- Values usable in Python arithmetic with a float (`+ 0.1`, `min`,
ordered comparison): numbers and booleans.  Anything else raises. -/
def pyNumeric : JVal → Option Rat
  | .num q => some q
  | .bool b => some (if b then 1 else 0)
  | _ => none

/-- A Python float value as produced by `float(...)`: finite (modelled as
an exact rational), signed infinity, or NaN. -/
inductive PFloat where
  | fin (q : Rat)
  | inf (neg : Bool)
  | nan
deriving DecidableEq

/-- Continuation of a PEP 515 digit part after its first digit: consume
`(["_"] digit)*`, returning the digits (underscores removed) and the
unconsumed remainder.  A dangling underscore (not followed by a digit) is
left in the remainder, where no caller accepts it. -/
def duAux : List Char → List Char × List Char
  | [] => ([], [])
  | ['_'] => ([], ['_'])
  | '_' :: c :: rest =>
    if isDig c then
      let p := duAux rest
      (c :: p.1, p.2)
    else ([], '_' :: c :: rest)
  | c :: rest =>
    if isDig c then
      let p := duAux rest
      (c :: p.1, p.2)
    else ([], c :: rest)

/-- A PEP 515 digit part `digit (["_"] digit)*`: the digits with the
underscore separators removed, plus the remainder; fails unless the input
starts with a digit. -/
def digitPart (cs : List Char) : Option (List Char × List Char) :=
  match cs with
  | c :: rest =>
    if isDig c then
      let p := duAux rest
      some (c :: p.1, p.2)
    else none
  | [] => none

/-- Model of a Python `float(...)` call on a string literal: optional
whitespace and sign, then either a case-insensitive `inf`/`infinity`/`nan`
literal or decimal digits (with PEP 515 underscore separators) with
optional point and exponent. -/
def pyFloat (s : String) : Option PFloat :=
  let cs0 := (((s.data.dropWhile pyWs).reverse.dropWhile pyWs).reverse)
  let (neg, cs1) : Bool × List Char := match cs0 with
    | '-' :: rest => (true, rest)
    | '+' :: rest => (false, rest)
    | _ => (false, cs0)
  let low := pyLower (String.mk cs1)
  if low = "inf" ∨ low = "infinity" then some (.inf neg)
  else if low = "nan" then some .nan
  else
  let (ds, cs2) : List Char × List Char := match digitPart cs1 with
    | some p => p
    | none => ([], cs1)
  let (fr, cs3) : List Char × List Char := match cs2 with
    | '.' :: rest =>
      match digitPart rest with
      | some p => p
      | none => ([], rest)
    | _ => ([], cs2)
  if ds.isEmpty ∧ fr.isEmpty then none
  else
    let mant : Rat := (digitsVal (ds ++ fr) : Rat) / ((10 : Rat) ^ fr.length)
    match cs3 with
    | [] => some (.fin (if neg then -mant else mant))
    | e :: rest =>
      if e = 'e' ∨ e = 'E' then
        let (eneg, rest2) : Bool × List Char := match rest with
          | '-' :: r => (true, r)
          | '+' :: r => (false, r)
          | _ => (false, rest)
        match digitPart rest2 with
        | some (eds, []) =>
          let scaled : Rat :=
            if eneg then mant / ((10 : Rat) ^ digitsVal eds)
            else mant * ((10 : Rat) ^ digitsVal eds)
          some (.fin (if neg then -scaled else scaled))
        | _ => none
      else none

/-- Values accepted by Python `float(confidence)`: numbers, booleans and
float-literal strings.  Anything else raises. -/
def pyFloatConv : JVal → Option PFloat
  | .num q => some (.fin q)
  | .bool b => some (.fin (if b then 1 else 0))
  | .str s => pyFloat s
  | _ => none

/-- Model of `PhishingDetector._format_confidence`: the converted value
times 100 (an infinity or NaN absorbs the multiplication), with 50.0 on
any conversion failure. -/
def format_confidence (c : JVal) : PFloat :=
  match pyFloatConv c with
  | some (.fin q) => .fin (q * 100)
  | some (.inf b) => .inf b
  | some .nan => .nan
  | none => .fin 50

/-- The string elements of a list of JSON values; fails if any element is
not a string (Python raises on `element.lower()` for non-strings). -/
def strsOf : List JVal → Option (List String)
  | [] => some []
  | .str s :: rest => (strsOf rest).map fun l => s :: l
  | _ :: _ => none

/-- Python iteration over the insights value followed by `.lower()` on
each element: lists must contain strings, strings iterate as characters,
dicts iterate over their (string) keys; anything else raises. -/
def iterStrs : JVal → Option (List String)
  | .arr xs => strsOf xs
  | .str s => some (s.data.map fun c => String.mk [c])
  | .obj kvs => some (kvs.map Prod.fst)
  | _ => none

/-- Python slicing `value[:5]`: lists and strings only. -/
def slice5 : JVal → Option JVal
  | .arr xs => some (.arr (xs.take 5))
  | .str s => some (.str (String.mk (s.data.take 5)))
  | _ => none

/-- The fixed keyword list scanned by `_calc_risk_level`. -/
def danger_keywords : List String :=
  ["credentials", "password", "account", "urgent", "login", "verify"]

/-- Does an insight contain at least one danger keyword after lowering?
Models the inner keyword loop (which breaks at the first match, so each
insight contributes at most once). -/
def insightHasKeyword (insight : String) : Bool :=
  danger_keywords.any fun k => containsSub k.data (pyLower insight).data

/-- Model of `PhishingDetector._calc_risk_level`. -/
def calc_risk_level (analysis : JVal) : Option RiskLevel := do
  let pv ← dictGet analysis "phishing_likelihood" (.num 0.5)
  let iv ← dictGet analysis "insights" (.arr [])
  let insights ← iterStrs iv
  let base ← pyNumeric pv
  let score := insights.foldl (fun acc i => if insightHasKeyword i then acc + (0.1 : Rat) else acc) base
  let clamped := min score (1.0 : Rat)
  some (if clamped < (0.35 : Rat) then .SAFE
        else if clamped < (0.65 : Rat) then .SUSPICIOUS
        else .DANGEROUS)

/-- The constant timestamp string hard-coded in the source. -/
def fixedTimestamp : String := "2025-03-07 14:05:36"

/-- The verdict record returned by `analyze_email`.  `reasons`,
`recommended_action` and `analysis` hold whatever JSON values the parsed
analysis supplied. -/
structure Verdict where
  timestamp : String
  risk_level : RiskLevel
  confidence : PFloat
  reasons : JVal
  recommended_action : JVal
  analysis : JVal

/-- Model of `PhishingDetector._error_response`. -/
def error_response (message : String) : Verdict :=
  { timestamp := fixedTimestamp
    risk_level := .SUSPICIOUS
    confidence := .fin 50
    reasons := .arr [.str "Error in analysis process"]
    recommended_action := .str "Manual review required"
    analysis := .str message }

/-- Case-insensitive prefix test (pattern already lower-case). -/
def prefixCI : List Char → List Char → Bool
  | [], _ => true
  | _ :: _, [] => false
  | p :: ps, c :: cs => (pyLowerChar c = p) && prefixCI ps cs

/-- First index at which the lower-cased pattern occurs (the regex match
is not anchored to line starts). -/
def findPat (pat : List Char) : List Char → Option Nat
  | [] => if prefixCI pat [] then some 0 else none
  | c :: rest =>
    if prefixCI pat (c :: rest) then some 0 else (findPat pat rest).map (· + 1)

/-- Model of `re.search(pat + r"\s*(.*?)(?:\n|$)", raw, re.I)` for a
literal header pattern: returns the captured group and the match end
position.  After the pattern, the maximal whitespace run is skipped
(`\s*` is greedy and may cross newlines), the capture extends to the next
newline or the end of input, and a terminating newline is part of the
match. -/
def headerMatch (pat : List Char) (raw : String) : Option (String × Nat) :=
  (findPat pat raw.data).map fun i =>
    let j := i + pat.length
    let tail := raw.data.drop j
    let j2 := j + (tail.takeWhile pyWs).length
    let tail2 := tail.dropWhile pyWs
    match firstIdx (fun c => c = Char.ofNat 10) tail2 with
    | some k => (String.mk (tail2.take k), j2 + k + 1)
    | none => (String.mk tail2, raw.data.length)

/-- Model of `PhishingDetector._extract_email_parts`. -/
def extract_email_parts (raw : String) : String × String × String :=
  let fm := headerMatch ("from:".data) raw
  let sm := headerMatch ("subject:".data) raw
  let sender := match fm with
    | some g => pyStrip g.1
    | none => "unknown"
  let subject := match sm with
    | some g => pyStrip g.1
    | none => "unknown"
  let headerPos := max (match fm with | some g => g.2 | none => 0)
                       (match sm with | some g => g.2 | none => 0)
  let body := if headerPos > 0 then pyStrip (String.mk (raw.data.drop headerPos)) else raw
  (sender, subject, body)

/-- The fixed prompt template up to the sender field. -/
def promptPre : String :=
  "Analyze this email for phishing threats and security risks.\nEMAIL:\nFrom: "

/-- The template between sender and subject. -/
def promptMid1 : String := "\nSubject: "

/-- The template between subject and body. -/
def promptMid2 : String := "\nBody: \n"

/-- The fixed template after the body: red-flag list and output schema. -/
def promptTail : String :=
  "\nLook for:\n- Urgency/threatening language\n- Spelling/grammar issues\n" ++
  "- Requests for sensitive data (credentials, personal info)\n" ++
  "- Suspicious links or attachments\n- Brand impersonation attempts\n" ++
  "- Social engineering tactics\n" ++
  "IMPORTANT: Respond with ONLY a JSON object having this structure:\n\x7b\n" ++
  "  \"phishing_likelihood\": <float 0-1>,\n  \"confidence\": <float 0-1>,\n" ++
  "  \"insights\": [<strings listing specific red flags>],\n" ++
  "  \"reasoning\": \"<detailed explanation>\",\n" ++
  "  \"recommended_action\": \"<action advice for user>\"\n\x7d\n"

/-- The truncation marker appended to over-long bodies. -/
def truncMarker : String := "...[truncated]"

/-- Model of `PhishingDetector._build_prompt`: bodies longer than 5000
characters are cut to their first 5000 characters plus the marker. -/
def build_prompt (sender subject body : String) : String :=
  let body2 :=
    if body.data.length > 5000 then String.mk (body.data.take 5000) ++ truncMarker else body
  promptPre ++ sender ++ promptMid1 ++ subject ++ promptMid2 ++ body2 ++ promptTail

/-- Lower-case hexadecimal digit character for a value below 16. -/
def hexDigit (k : Nat) : Char :=
  if k < 10 then Char.ofNat (48 + k) else Char.ofNat (87 + k)

/-- JSON string escaping as performed by `json.dumps` with the default
`ensure_ascii=True`: short escapes for quote, backslash and the common
control characters, `\u00xx` for other control characters, printable
ASCII verbatim, and `\uXXXX` (with surrogate pairs) for everything
non-ASCII. -/
def escChar (c : Char) : List Char :=
  if c = '"' then ['\\', '"']
  else if c = '\\' then ['\\', '\\']
  else if c.toNat = 8 then ['\\', 'b']
  else if c.toNat = 12 then ['\\', 'f']
  else if c.toNat = 10 then ['\\', 'n']
  else if c.toNat = 13 then ['\\', 'r']
  else if c.toNat = 9 then ['\\', 't']
  else if c.toNat < 0x20 ∨ (0x7e < c.toNat ∧ c.toNat < 0x10000) then
    '\\' :: 'u' :: [hexDigit (c.toNat / 4096 % 16), hexDigit (c.toNat / 256 % 16),
                    hexDigit (c.toNat / 16 % 16), hexDigit (c.toNat % 16)]
  else if c.toNat ≤ 0x7e then [c]
  else
    let m := c.toNat - 0x10000
    let hi := 0xd800 + m / 0x400
    let lo := 0xdc00 + m % 0x400
    '\\' :: 'u' :: [hexDigit (hi / 4096 % 16), hexDigit (hi / 256 % 16),
                    hexDigit (hi / 16 % 16), hexDigit (hi % 16)] ++
    '\\' :: 'u' :: [hexDigit (lo / 4096 % 16), hexDigit (lo / 256 % 16),
                    hexDigit (lo / 16 % 16), hexDigit (lo % 16)]

/-- JSON-escape a list of characters. -/
def escapeChars (l : List Char) : List Char :=
  l.flatMap escChar

/-- JSON-escape a whole string. -/
def escapeStr (s : String) : List Char :=
  escapeChars s.data

/-- The ordered model-tier list tried by `_call_gemini_with_retry`. -/
def models_to_try : List String :=
  ["gemini-2.0-flash", "gemini-1.5-flash", "gemini-1.0-pro"]

/-- The retry budget (`MAX_RETRIES`). -/
def MAX_RETRIES : Nat := 3

/-- The model identifier selected at a given 0-based attempt index. -/
def tierAt (i : Nat) : String :=
  models_to_try.getD (min i (models_to_try.length - 1)) ""

/-- Does the failure message indicate rate limiting
(`"rate limit" in error_msg.lower()`)? -/
def isRateLimited (msg : String) : Bool :=
  containsSub ("rate limit".data) ((pyLower msg).data)

/-- A double-quoted, escaped JSON string literal followed by `rest`, as
rendered by `json.dumps`. -/
def jStr (s : String) (rest : List Char) : List Char :=
  '"' :: escapeChars s.data ++ '"' :: rest

/-- The characters of the synthetic fallback payload built with
`json.dumps` when the final attempt fails with a non-rate-limit error
(dict literal of `_call_gemini_with_retry`, lines 126-132; `json.dumps`
renders it with `": "` and `", "` separators and escapes the embedded
error text). -/
def sentinelChars (msg : String) : List Char :=
  '{' ::
  jStr "phishing_likelihood" (':' :: ' ' :: '0' :: '.' :: '5' :: ',' :: ' ' ::
  jStr "confidence" (':' :: ' ' :: '0' :: '.' :: '4' :: ',' :: ' ' ::
  jStr "insights" (':' :: ' ' :: '[' ::
    jStr "API error: Unable to analyze email" (']' :: ',' :: ' ' ::
  jStr "reasoning" (':' :: ' ' ::
    jStr ("Error: " ++ msg) (',' :: ' ' ::
  jStr "recommended_action" (':' :: ' ' ::
    jStr "Please examine the email carefully" (['}']))))))))

/-- The synthetic fallback payload as a string. -/
def sentinelJson (msg : String) : String :=
  String.mk (sentinelChars msg)

/-- The JSON value denoted by the sentinel payload. -/
def sentinelObj (msg : String) : JVal :=
  .obj [("phishing_likelihood", .num 0.5),
        ("confidence", .num 0.4),
        ("insights", .arr [.str "API error: Unable to analyze email"]),
        ("reasoning", .str ("Error: " ++ msg)),
        ("recommended_action", .str "Please examine the email carefully")]

/-- Observable outcome of the retry loop: the returned text, the number of
attempts made (each one increments `api_calls`), the sleeps performed, and
the model tier used at each attempt. -/
structure CallResult where
  text : String
  attemptsMade : Nat
  sleeps : List Nat
  used : List String

/-- One step of the retry loop of `_call_gemini_with_retry`; the oracle
`gen` maps attempt index, model identifier and prompt to the remote
outcome (success text or failure message). -/
def retryAux (gen : Nat → String → String → Except String String) (prompt : String) :
    Nat → Nat → CallResult
  | 0, _ => { text := "\x7b\x7d", attemptsMade := 0, sleeps := [], used := [] }
  | rem + 1, i =>
    let m := tierAt i
    match gen i m prompt with
    | .ok s => { text := s, attemptsMade := 1, sleeps := [], used := [m] }
    | .error msg =>
      if isRateLimited msg then
        let r := retryAux gen prompt rem (i + 1)
        { text := r.text, attemptsMade := r.attemptsMade + 1,
          sleeps := (i + 1) * 2 :: r.sleeps, used := m :: r.used }
      else if i < MAX_RETRIES - 1 then
        let r := retryAux gen prompt rem (i + 1)
        { text := r.text, attemptsMade := r.attemptsMade + 1,
          sleeps := 1 :: r.sleeps, used := m :: r.used }
      else
        { text := sentinelJson msg, attemptsMade := 1, sleeps := [], used := [m] }

/-- Model of `PhishingDetector._call_gemini_with_retry`. -/
def call_gemini_with_retry (gen : Nat → String → String → Except String String)
    (prompt : String) : CallResult :=
  retryAux gen prompt MAX_RETRIES 0

/-- Mutable detector state: the response cache (keyed by the prompt hash),
the `api_calls` counter, and the debug flag. -/
structure DetState where
  cache : List (Int × String)
  apiCalls : Nat
  debug : Bool

/-- Python dict assignment `cache[k] = v`: replace the binding if the key
is present, append otherwise. -/
def cacheInsert (k : Int) (v : String) : List (Int × String) → List (Int × String)
  | [] => [(k, v)]
  | (k2, v2) :: rest => if k2 = k then (k, v) :: rest else (k2, v2) :: cacheInsert k v rest

/-- The rendered prompt for a given raw email text. -/
def promptOf (email : String) : String :=
  let p := extract_email_parts email
  build_prompt p.1 p.2.1 p.2.2

/-- Assembly of the verdict record from the parsed analysis
(`analyze_email`, lines 42-51).  `none` models an uncaught Python
exception: the parsed value is not a dict, the likelihood is not numeric,
the insights value is not iterable over strings, or it cannot be sliced. -/
def assembleVerdict (analysis : JVal) : Option Verdict :=
  match calc_risk_level analysis, dictGet analysis "confidence" (.num 0.5),
        dictGet analysis "insights" (.arr []) with
  | some rl, some cv, some iv =>
    (match slice5 iv, dictGet analysis "recommended_action" (.str "Review email carefully"),
           dictGet analysis "reasoning" (.str "") with
     | some rs, some av, some gv =>
       some { timestamp := fixedTimestamp
              risk_level := rl
              confidence := format_confidence cv
              reasons := rs
              recommended_action := av
              analysis := gv }
     | _, _, _ => none)
  | _, _, _ => none

/-- Model of `PhishingDetector.analyze_email`.  `hashFn` abstracts the
process-seeded Python `hash`; `gen` is the remote-generation oracle for
this call.  Returns the verdict (or `none` for a propagated exception)
together with the updated detector state. -/
def analyze_email (hashFn : String → Int) (gen : Nat → String → String → Except String String)
    (st : DetState) (email : String) : Option Verdict × DetState :=
  if email = "" ∨ pyStrip email = "" then (some (error_response "Empty email text"), st)
  else
    let prompt := promptOf email
    let key := hashFn prompt
    match List.lookup key st.cache, st.debug with
    | some cached, false => (assembleVerdict (extract_json cached), st)
    | _, _ =>
      let r := call_gemini_with_retry gen prompt
      let st2 : DetState :=
        { cache := cacheInsert key r.text st.cache
          apiCalls := st.apiCalls + r.attemptsMade
          debug := st.debug }
      (assembleVerdict (extract_json r.text), st2)

/-- The spec's tolerance example: bare identifier keys and single-quoted
strings (single quotes written via `aposChar`). -/
def tolerantExample : String :=
  "\x7bphishing_likelihood: 0.8, confidence: 0.9, insights: [" ++ String.mk [aposChar] ++ "x" ++
  String.mk [aposChar] ++ "], reasoning: " ++ String.mk [aposChar] ++ "y" ++
  String.mk [aposChar] ++ ", recommended_action: " ++ String.mk [aposChar] ++ "z" ++
  String.mk [aposChar] ++ "\x7d"


/-- Well-formedness of a recovered analysis value: a dict whose
`phishing_likelihood` (defaulting to 0.5) is numeric, whose `insights`
(defaulting to `[]`) is a list of strings or a string, and whose
`confidence` (defaulting to 0.5) either fails `float(...)` conversion or
converts to a finite value in [0,1] — in particular float-literal strings
such as "1_0" or "inf", which Python converts to values outside [0,1],
are NOT well-formed. -/
def wfParsed (v : JVal) : Bool :=
  match v with
  | .obj kvs =>
    (pyNumeric ((lookupLast "phishing_likelihood" kvs).getD (.num 0.5))).isSome
    && (match (lookupLast "insights" kvs).getD (.arr []) with
        | .arr xs => (strsOf xs).isSome
        | .str _ => true
        | _ => false)
    && (match pyFloatConv ((lookupLast "confidence" kvs).getD (.num 0.5)) with
        | some (.fin q) => decide (0 ≤ q) && decide (q ≤ 1)
        | some _ => false
        | none => true)
  | _ => false

/-! ### Supporting lemmas -/

theorem hexVal_hexDigit : ∀ k, k < 16 → hexVal (hexDigit k) = some k := by decide

theorem char_toNat_valid (c : Char) :
    c.toNat < 0xd800 ∨ (0xdfff < c.toNat ∧ c.toNat < 0x110000) := by
  rcases c.valid with h | ⟨h1, h2⟩
  · left
    exact h
  · right
    exact ⟨h1, h2⟩

theorem hex4_enc (n : Nat) (h : n < 65536) :
    hex4 (hexDigit (n / 4096 % 16)) (hexDigit (n / 256 % 16))
      (hexDigit (n / 16 % 16)) (hexDigit (n % 16)) = some n := by
  unfold hex4
  rw [hexVal_hexDigit _ (by omega), hexVal_hexDigit _ (by omega),
      hexVal_hexDigit _ (by omega), hexVal_hexDigit _ (by omega)]
  simp only []
  congr 1
  omega

theorem escChar_step (c : Char) (f : Nat) (cs t r : List Char)
    (h : parseStrS f cs = some (t, r)) :
    parseStrS (f + 1) (escChar c ++ cs) = some (c :: t, r) := by
  by_cases h1 : c = '"'
  · subst h1
    simp [escChar, parseStrS, consCh, h]
  by_cases h2 : c = '\\'
  · subst h2
    simp [escChar, parseStrS, consCh, h]
  by_cases h3 : c.toNat = 8
  · have hc : c = Char.ofNat 8 := by rw [← h3, Char.ofNat_toNat]
    subst hc
    simp_all [escChar, parseStrS, consCh]
  by_cases h4 : c.toNat = 12
  · have hc : c = Char.ofNat 12 := by rw [← h4, Char.ofNat_toNat]
    subst hc
    simp_all [escChar, parseStrS, consCh]
  by_cases h5 : c.toNat = 10
  · have hc : c = Char.ofNat 10 := by rw [← h5, Char.ofNat_toNat]
    subst hc
    simp_all [escChar, parseStrS, consCh]
  by_cases h6 : c.toNat = 13
  · have hc : c = Char.ofNat 13 := by rw [← h6, Char.ofNat_toNat]
    subst hc
    simp_all [escChar, parseStrS, consCh]
  by_cases h7 : c.toNat = 9
  · have hc : c = Char.ofNat 9 := by rw [← h7, Char.ofNat_toNat]
    subst hc
    simp_all [escChar, parseStrS, consCh]
  by_cases h8 : c.toNat < 0x20 ∨ (0x7e < c.toNat ∧ c.toNat < 0x10000)
  · have hlt : c.toNat < 65536 := by omega
    have hesc : escChar c =
        '\\' :: 'u' :: [hexDigit (c.toNat / 4096 % 16), hexDigit (c.toNat / 256 % 16),
                        hexDigit (c.toNat / 16 % 16), hexDigit (c.toNat % 16)] := by
      unfold escChar
      simp only [h1, h2, h3, h4, h5, h6, h7, h8, reduceIte]
    rw [hesc]
    simp only [List.cons_append, List.nil_append]
    rw [parseStrS]
    simp only [reduceIte]
    rw [hex4_enc c.toNat hlt]
    rcases char_toNat_valid c with hv | ⟨hv1, hv2⟩
    · simp only [hv, reduceIte]
      rw [Char.ofNat_toNat]
      simp [consCh, h]
    · have hnd : ¬ (c.toNat < 0xd800) := by omega
      have hnd2 : ¬ (c.toNat ≤ 0xdbff) := by omega
      have hnd3 : ¬ (c.toNat ≤ 0xdfff) := by omega
      simp only [hnd, hnd2, hnd3, reduceIte]
      rw [Char.ofNat_toNat]
      simp [consCh, h]
  by_cases h9 : c.toNat ≤ 0x7e
  · have hesc : escChar c = [c] := by
      unfold escChar
      simp only [h1, h2, h3, h4, h5, h6, h7, h8, h9, reduceIte]
    rw [hesc]
    simp only [List.cons_append, List.nil_append]
    rw [parseStrS.eq_def]
    have hge : ¬ (c.toNat < 0x20) := by omega
    simp only [h1, h2, hge, reduceIte, consCh, h]
    rfl
  · have hval : c.toNat < 0x110000 := by
      rcases char_toNat_valid c with hv | ⟨_, hv2⟩
      · omega
      · omega
    have hge : 0x10000 ≤ c.toNat := by omega
    have hesc : escChar c =
        '\\' :: 'u' :: [hexDigit ((0xd800 + (c.toNat - 0x10000) / 0x400) / 4096 % 16),
                        hexDigit ((0xd800 + (c.toNat - 0x10000) / 0x400) / 256 % 16),
                        hexDigit ((0xd800 + (c.toNat - 0x10000) / 0x400) / 16 % 16),
                        hexDigit ((0xd800 + (c.toNat - 0x10000) / 0x400) % 16)] ++
        '\\' :: 'u' :: [hexDigit ((0xdc00 + (c.toNat - 0x10000) % 0x400) / 4096 % 16),
                        hexDigit ((0xdc00 + (c.toNat - 0x10000) % 0x400) / 256 % 16),
                        hexDigit ((0xdc00 + (c.toNat - 0x10000) % 0x400) / 16 % 16),
                        hexDigit ((0xdc00 + (c.toNat - 0x10000) % 0x400) % 16)] := by
      unfold escChar
      simp only [h1, h2, h3, h4, h5, h6, h7, h8, h9, reduceIte]
    rw [hesc]
    have hhi : 0xd800 + (c.toNat - 0x10000) / 0x400 < 65536 := by omega
    have hlo : 0xdc00 + (c.toNat - 0x10000) % 0x400 < 65536 := by omega
    simp only [List.cons_append, List.nil_append, List.append_assoc]
    rw [parseStrS]
    simp only [reduceIte]
    rw [hex4_enc _ hhi]
    have c1 : ¬ (0xd800 + (c.toNat - 0x10000) / 0x400 < 0xd800) := by omega
    have c2 : 0xd800 + (c.toNat - 0x10000) / 0x400 ≤ 0xdbff := by omega
    simp only [c1, c2, reduceIte]
    rw [hex4_enc _ hlo]
    have c3 : 0xdc00 ≤ 0xdc00 + (c.toNat - 0x10000) % 0x400 := by omega
    have c4 : 0xdc00 + (c.toNat - 0x10000) % 0x400 ≤ 0xdfff := by omega
    simp only [c3, c4, and_true, true_and, reduceIte, and_self]
    have hcomb : 0x10000 + (0xd800 + (c.toNat - 0x10000) / 0x400 - 0xd800) * 0x400 +
        (0xdc00 + (c.toNat - 0x10000) % 0x400 - 0xdc00) = c.toNat := by omega
    rw [hcomb, Char.ofNat_toNat]
    simp [consCh, h]

theorem escChar_length_pos (c : Char) : 1 ≤ (escChar c).length := by
  unfold escChar
  split
  · simp
  · split
    · simp
    · split
      · simp
      · split
        · simp
        · split
          · simp
          · split
            · simp
            · split
              · simp
              · split
                · simp
                · split
                  · simp
                  · simp

theorem length_le_escapeChars (l : List Char) : l.length ≤ (escapeChars l).length := by
  induction l with
  | nil => simp [escapeChars]
  | cons c ms ih =>
    have := escChar_length_pos c
    simp only [escapeChars, List.flatMap_cons, List.length_append, List.length_cons]
    simp only [escapeChars] at ih
    omega

theorem parseStrS_escape (msg : List Char) (f : Nat) (cs t r : List Char)
    (h : parseStrS f cs = some (t, r)) :
    parseStrS (msg.length + f) (escapeChars msg ++ cs) = some (msg ++ t, r) := by
  induction msg with
  | nil =>
    simpa [escapeChars] using h
  | cons c ms ih =>
    have step := escChar_step c (ms.length + f) (escapeChars ms ++ cs) (ms ++ t) r ih
    have harr : escapeChars (c :: ms) ++ cs = escChar c ++ (escapeChars ms ++ cs) := by
      simp [escapeChars, List.flatMap_cons, List.append_assoc]
    have hlen : (c :: ms).length + f = (ms.length + f) + 1 := by
      simp [List.length_cons]
      omega
    rw [harr, hlen, step]
    simp

theorem parseStrS_quote (f : Nat) (rest : List Char) :
    parseStrS (f + 1) ('"' :: rest) = some ([], rest) := by
  simp [parseStrS]

theorem parseStrAux_escaped (msg : List Char) (rest : List Char) :
    parseStrAux (escapeChars msg ++ '"' :: rest) = some (msg, rest) := by
  unfold parseStrAux
  have hlen : (escapeChars msg ++ '"' :: rest).length =
      msg.length + ((escapeChars msg).length - msg.length + rest.length + 1) := by
    have := length_le_escapeChars msg
    simp [List.length_append, List.length_cons]
    omega
  rw [hlen]
  have h := parseStrS_quote ((escapeChars msg).length - msg.length + rest.length) rest
  have := parseStrS_escape msg ((escapeChars msg).length - msg.length + rest.length + 1)
    ('"' :: rest) [] rest h
  simpa using this

theorem skipJWs_cons_not (c : Char) (l : List Char) (h : jWs c = false) :
    skipJWs (c :: l) = c :: l := by
  simp [skipJWs, h]

theorem skipJWs_ws (c : Char) (l : List Char) (h : jWs c = true) :
    skipJWs (c :: l) = skipJWs l := by
  simp [skipJWs, h]

theorem parseF_val_ws (f : Nat) (cs : List Char) :
    parseF (f + 1) .val (' ' :: cs) = parseF (f + 1) .val cs := by
  rw [parseF, parseF]
  rw [skipJWs_ws _ _ (by decide)]

theorem parseF_val_str (f : Nat) (s : String) (rest : List Char) :
    parseF (f + 1) .val ('"' :: escapeChars s.data ++ '"' :: rest) =
      some (.pv (.str s), rest) := by
  rw [parseF]
  simp only [List.cons_append]
  rw [skipJWs_cons_not _ _ (by decide)]
  simp only [parseStrAux_escaped]
  simp

theorem parseF_val_num05 (f : Nat) (rest : List Char) :
    parseF (f + 1) .val ('0' :: '.' :: '5' :: ',' :: rest) =
      some (.pv (.num (0.5 : Rat)), ',' :: rest) := by
  rw [parseF]
  rw [skipJWs_cons_not _ _ (by decide)]
  show Option.map (fun p => (POut.pv (JVal.num p.1), p.2))
      (parseNum ('0' :: '.' :: '5' :: ',' :: rest)) = _
  simp +decide [parseNum]
  have hd : digitsVal ['0', '5'] = 5 := by decide
  rw [hd]
  norm_num

theorem parseF_val_num04 (f : Nat) (rest : List Char) :
    parseF (f + 1) .val ('0' :: '.' :: '4' :: ',' :: rest) =
      some (.pv (.num (0.4 : Rat)), ',' :: rest) := by
  rw [parseF]
  rw [skipJWs_cons_not _ _ (by decide)]
  show Option.map (fun p => (POut.pv (JVal.num p.1), p.2))
      (parseNum ('0' :: '.' :: '4' :: ',' :: rest)) = _
  simp +decide [parseNum]
  have hd : digitsVal ['0', '4'] = 4 := by decide
  rw [hd]
  norm_num

theorem parseF_val_arr1 (f : Nat) (s : String) (rest : List Char) :
    parseF (f + 3) .val ('[' :: '"' :: escapeChars s.data ++ '"' :: ']' :: rest) =
      some (.pv (.arr [.str s]), rest) := by
  rw [parseF]
  simp only [List.cons_append]
  rw [skipJWs_cons_not _ _ (by decide)]
  show (match parseF (f + 2) .items ('"' :: (escapeChars s.data ++ '"' :: ']' :: rest)) with
        | some (POut.pi vs, r) => some (POut.pv (JVal.arr vs), r)
        | _ => none) = _
  rw [parseF]
  have hstr := parseF_val_str f s (']' :: rest)
  simp only [List.cons_append] at hstr
  rw [hstr]
  rfl

theorem parseF_members_more (f : Nat) (k : String) (v : JVal) (vch rest2 tail : List Char)
    (ms : List (String × JVal))
    (hval : parseF f .val (' ' :: vch) = some (.pv v, ',' :: rest2))
    (hnext : parseF f .members rest2 = some (.pm ms, tail)) :
    parseF (f + 1) .members ('"' :: escapeChars k.data ++ '"' :: ':' :: ' ' :: vch) =
      some (.pm ((k, v) :: ms), tail) := by
  rw [parseF]
  simp only [List.cons_append]
  rw [skipJWs_cons_not _ _ (by decide)]
  show (match parseStrAux (escapeChars k.data ++ '"' :: ':' :: ' ' :: vch) with
        | some (kk, r1) =>
          (match skipJWs r1 with
           | ':' :: r2 =>
             (match parseF f .val r2 with
              | some (POut.pv vv, r3) =>
                (match skipJWs r3 with
                 | ',' :: r4 =>
                   (match parseF f .members r4 with
                    | some (POut.pm mms, r5) => some (POut.pm ((String.mk kk, vv) :: mms), r5)
                    | _ => none)
                 | '}' :: r4 => some (POut.pm [(String.mk kk, vv)], r4)
                 | _ => none)
              | _ => none)
           | _ => none)
        | none => none) = _
  rw [parseStrAux_escaped]
  show (match parseF f .val (' ' :: vch) with
        | some (POut.pv vv, r3) =>
          (match skipJWs r3 with
           | ',' :: r4 =>
             (match parseF f .members r4 with
              | some (POut.pm mms, r5) => some (POut.pm ((String.mk k.data, vv) :: mms), r5)
              | _ => none)
           | '}' :: r4 => some (POut.pm [(String.mk k.data, vv)], r4)
           | _ => none)
        | _ => none) = _
  rw [hval]
  show (match parseF f .members rest2 with
        | some (POut.pm mms, r5) => some (POut.pm ((String.mk k.data, v) :: mms), r5)
        | _ => none) = _
  rw [hnext]

theorem parseF_members_last (f : Nat) (k : String) (v : JVal) (vch tail : List Char)
    (hval : parseF f .val (' ' :: vch) = some (.pv v, '}' :: tail)) :
    parseF (f + 1) .members ('"' :: escapeChars k.data ++ '"' :: ':' :: ' ' :: vch) =
      some (.pm [(k, v)], tail) := by
  rw [parseF]
  simp only [List.cons_append]
  rw [skipJWs_cons_not _ _ (by decide)]
  show (match parseStrAux (escapeChars k.data ++ '"' :: ':' :: ' ' :: vch) with
        | some (kk, r1) =>
          (match skipJWs r1 with
           | ':' :: r2 =>
             (match parseF f .val r2 with
              | some (POut.pv vv, r3) =>
                (match skipJWs r3 with
                 | ',' :: r4 =>
                   (match parseF f .members r4 with
                    | some (POut.pm mms, r5) => some (POut.pm ((String.mk kk, vv) :: mms), r5)
                    | _ => none)
                 | '}' :: r4 => some (POut.pm [(String.mk kk, vv)], r4)
                 | _ => none)
              | _ => none)
           | _ => none)
        | none => none) = _
  rw [parseStrAux_escaped]
  show (match parseF f .val (' ' :: vch) with
        | some (POut.pv vv, r3) =>
          (match skipJWs r3 with
           | ',' :: r4 =>
             (match parseF f .members r4 with
              | some (POut.pm mms, r5) => some (POut.pm ((String.mk k.data, vv) :: mms), r5)
              | _ => none)
           | '}' :: r4 => some (POut.pm [(String.mk k.data, vv)], r4)
           | _ => none)
        | _ => none) = _
  rw [hval]
  rfl

theorem parseF_members_ws (f : Nat) (cs : List Char) :
    parseF (f + 1) .members (' ' :: cs) = parseF (f + 1) .members cs := by
  rw [parseF, parseF]
  rw [skipJWs_ws _ _ (by decide)]

theorem sentinel_parse (f : Nat) (msg : String) :
    parseF (f + 9) .val (sentinelChars msg) = some (.pv (sentinelObj msg), []) := by
  -- the five member suffixes, innermost first
  have h5v : parseF (f + 3) .val
      (' ' :: ('"' :: escapeChars ("Please examine the email carefully").data ++ '"' :: '}' :: [])) =
      some (.pv (.str "Please examine the email carefully"), '}' :: []) :=
    (parseF_val_ws (f + 2) _).trans (parseF_val_str (f + 2) _ _)
  have m5 : parseF (f + 4) .members
      ('"' :: escapeChars ("recommended_action").data ++ '"' :: ':' :: ' ' ::
        ('"' :: escapeChars ("Please examine the email carefully").data ++ '"' :: '}' :: [])) =
      some (.pm [("recommended_action", .str "Please examine the email carefully")], []) :=
    parseF_members_last (f + 3) _ _ _ _ h5v
  have h4v : parseF (f + 4) .val
      (' ' :: ('"' :: escapeChars (("Error: " ++ msg)).data ++ '"' :: ',' :: ' ' ::
        ('"' :: escapeChars ("recommended_action").data ++ '"' :: ':' :: ' ' ::
          ('"' :: escapeChars ("Please examine the email carefully").data ++ '"' :: '}' :: [])))) =
      some (.pv (.str ("Error: " ++ msg)), ',' :: ' ' ::
        ('"' :: escapeChars ("recommended_action").data ++ '"' :: ':' :: ' ' ::
          ('"' :: escapeChars ("Please examine the email carefully").data ++ '"' :: '}' :: []))) :=
    (parseF_val_ws (f + 3) _).trans (parseF_val_str (f + 3) _ _)
  have m4 : parseF (f + 5) .members
      ('"' :: escapeChars ("reasoning").data ++ '"' :: ':' :: ' ' ::
        ('"' :: escapeChars (("Error: " ++ msg)).data ++ '"' :: ',' :: ' ' ::
          ('"' :: escapeChars ("recommended_action").data ++ '"' :: ':' :: ' ' ::
            ('"' :: escapeChars ("Please examine the email carefully").data ++ '"' :: '}' :: [])))) =
      some (.pm [("reasoning", .str ("Error: " ++ msg)),
                 ("recommended_action", .str "Please examine the email carefully")], []) :=
    parseF_members_more (f + 4) _ _ _ _ _ _ h4v
      ((parseF_members_ws (f + 3) _).trans m5)
  have h3v : parseF (f + 5) .val
      (' ' :: ('[' :: '"' :: escapeChars ("API error: Unable to analyze email").data ++ '"' :: ']' ::
        ',' :: ' ' ::
        ('"' :: escapeChars ("reasoning").data ++ '"' :: ':' :: ' ' ::
          ('"' :: escapeChars (("Error: " ++ msg)).data ++ '"' :: ',' :: ' ' ::
            ('"' :: escapeChars ("recommended_action").data ++ '"' :: ':' :: ' ' ::
              ('"' :: escapeChars ("Please examine the email carefully").data ++ '"' :: '}' :: [])))))) =
      some (.pv (.arr [.str "API error: Unable to analyze email"]), ',' :: ' ' ::
        ('"' :: escapeChars ("reasoning").data ++ '"' :: ':' :: ' ' ::
          ('"' :: escapeChars (("Error: " ++ msg)).data ++ '"' :: ',' :: ' ' ::
            ('"' :: escapeChars ("recommended_action").data ++ '"' :: ':' :: ' ' ::
              ('"' :: escapeChars ("Please examine the email carefully").data ++ '"' :: '}' :: []))))) :=
    (parseF_val_ws (f + 4) _).trans (parseF_val_arr1 (f + 2) _ _)
  have m3 : parseF (f + 6) .members
      ('"' :: escapeChars ("insights").data ++ '"' :: ':' :: ' ' ::
        ('[' :: '"' :: escapeChars ("API error: Unable to analyze email").data ++ '"' :: ']' ::
          ',' :: ' ' ::
          ('"' :: escapeChars ("reasoning").data ++ '"' :: ':' :: ' ' ::
            ('"' :: escapeChars (("Error: " ++ msg)).data ++ '"' :: ',' :: ' ' ::
              ('"' :: escapeChars ("recommended_action").data ++ '"' :: ':' :: ' ' ::
                ('"' :: escapeChars ("Please examine the email carefully").data ++ '"' :: '}' :: [])))))) =
      some (.pm [("insights", .arr [.str "API error: Unable to analyze email"]),
                 ("reasoning", .str ("Error: " ++ msg)),
                 ("recommended_action", .str "Please examine the email carefully")], []) :=
    parseF_members_more (f + 5) _ _ _ _ _ _ h3v
      ((parseF_members_ws (f + 4) _).trans m4)
  have h2v : parseF (f + 6) .val
      (' ' :: ('0' :: '.' :: '4' :: ',' :: ' ' ::
        ('"' :: escapeChars ("insights").data ++ '"' :: ':' :: ' ' ::
          ('[' :: '"' :: escapeChars ("API error: Unable to analyze email").data ++ '"' :: ']' ::
            ',' :: ' ' ::
            ('"' :: escapeChars ("reasoning").data ++ '"' :: ':' :: ' ' ::
              ('"' :: escapeChars (("Error: " ++ msg)).data ++ '"' :: ',' :: ' ' ::
                ('"' :: escapeChars ("recommended_action").data ++ '"' :: ':' :: ' ' ::
                  ('"' :: escapeChars ("Please examine the email carefully").data ++ '"' :: '}' :: [])))))))) =
      some (.pv (.num (0.4 : Rat)), ',' :: ' ' ::
        ('"' :: escapeChars ("insights").data ++ '"' :: ':' :: ' ' ::
          ('[' :: '"' :: escapeChars ("API error: Unable to analyze email").data ++ '"' :: ']' ::
            ',' :: ' ' ::
            ('"' :: escapeChars ("reasoning").data ++ '"' :: ':' :: ' ' ::
              ('"' :: escapeChars (("Error: " ++ msg)).data ++ '"' :: ',' :: ' ' ::
                ('"' :: escapeChars ("recommended_action").data ++ '"' :: ':' :: ' ' ::
                  ('"' :: escapeChars ("Please examine the email carefully").data ++ '"' :: '}' :: []))))))) :=
    (parseF_val_ws (f + 5) _).trans (parseF_val_num04 (f + 5) _)
  have m2 : parseF (f + 7) .members
      ('"' :: escapeChars ("confidence").data ++ '"' :: ':' :: ' ' ::
        ('0' :: '.' :: '4' :: ',' :: ' ' ::
          ('"' :: escapeChars ("insights").data ++ '"' :: ':' :: ' ' ::
            ('[' :: '"' :: escapeChars ("API error: Unable to analyze email").data ++ '"' :: ']' ::
              ',' :: ' ' ::
              ('"' :: escapeChars ("reasoning").data ++ '"' :: ':' :: ' ' ::
                ('"' :: escapeChars (("Error: " ++ msg)).data ++ '"' :: ',' :: ' ' ::
                  ('"' :: escapeChars ("recommended_action").data ++ '"' :: ':' :: ' ' ::
                    ('"' :: escapeChars ("Please examine the email carefully").data ++ '"' :: '}' :: [])))))))) =
      some (.pm [("confidence", .num (0.4 : Rat)),
                 ("insights", .arr [.str "API error: Unable to analyze email"]),
                 ("reasoning", .str ("Error: " ++ msg)),
                 ("recommended_action", .str "Please examine the email carefully")], []) :=
    parseF_members_more (f + 6) _ _ _ _ _ _ h2v
      ((parseF_members_ws (f + 5) _).trans m3)
  have h1v : parseF (f + 7) .val
      (' ' :: ('0' :: '.' :: '5' :: ',' :: ' ' ::
        ('"' :: escapeChars ("confidence").data ++ '"' :: ':' :: ' ' ::
          ('0' :: '.' :: '4' :: ',' :: ' ' ::
            ('"' :: escapeChars ("insights").data ++ '"' :: ':' :: ' ' ::
              ('[' :: '"' :: escapeChars ("API error: Unable to analyze email").data ++ '"' :: ']' ::
                ',' :: ' ' ::
                ('"' :: escapeChars ("reasoning").data ++ '"' :: ':' :: ' ' ::
                  ('"' :: escapeChars (("Error: " ++ msg)).data ++ '"' :: ',' :: ' ' ::
                    ('"' :: escapeChars ("recommended_action").data ++ '"' :: ':' :: ' ' ::
                      ('"' :: escapeChars ("Please examine the email carefully").data ++ '"' :: '}' :: [])))))))))) =
      some (.pv (.num (0.5 : Rat)), ',' :: ' ' ::
        ('"' :: escapeChars ("confidence").data ++ '"' :: ':' :: ' ' ::
          ('0' :: '.' :: '4' :: ',' :: ' ' ::
            ('"' :: escapeChars ("insights").data ++ '"' :: ':' :: ' ' ::
              ('[' :: '"' :: escapeChars ("API error: Unable to analyze email").data ++ '"' :: ']' ::
                ',' :: ' ' ::
                ('"' :: escapeChars ("reasoning").data ++ '"' :: ':' :: ' ' ::
                  ('"' :: escapeChars (("Error: " ++ msg)).data ++ '"' :: ',' :: ' ' ::
                    ('"' :: escapeChars ("recommended_action").data ++ '"' :: ':' :: ' ' ::
                      ('"' :: escapeChars ("Please examine the email carefully").data ++ '"' :: '}' :: []))))))))) :=
    (parseF_val_ws (f + 6) _).trans (parseF_val_num05 (f + 6) _)
  have m1 : parseF (f + 8) .members
      ('"' :: escapeChars ("phishing_likelihood").data ++ '"' :: ':' :: ' ' ::
        ('0' :: '.' :: '5' :: ',' :: ' ' ::
          ('"' :: escapeChars ("confidence").data ++ '"' :: ':' :: ' ' ::
            ('0' :: '.' :: '4' :: ',' :: ' ' ::
              ('"' :: escapeChars ("insights").data ++ '"' :: ':' :: ' ' ::
                ('[' :: '"' :: escapeChars ("API error: Unable to analyze email").data ++ '"' :: ']' ::
                  ',' :: ' ' ::
                  ('"' :: escapeChars ("reasoning").data ++ '"' :: ':' :: ' ' ::
                    ('"' :: escapeChars (("Error: " ++ msg)).data ++ '"' :: ',' :: ' ' ::
                      ('"' :: escapeChars ("recommended_action").data ++ '"' :: ':' :: ' ' ::
                        ('"' :: escapeChars ("Please examine the email carefully").data ++ '"' :: '}' :: [])))))))))) =
      some (.pm [("phishing_likelihood", .num (0.5 : Rat)),
                 ("confidence", .num (0.4 : Rat)),
                 ("insights", .arr [.str "API error: Unable to analyze email"]),
                 ("reasoning", .str ("Error: " ++ msg)),
                 ("recommended_action", .str "Please examine the email carefully")], []) :=
    parseF_members_more (f + 7) _ _ _ _ _ _ h1v
      ((parseF_members_ws (f + 6) _).trans m2)
  have hchars : sentinelChars msg = '{' ::
      ('"' :: escapeChars ("phishing_likelihood").data ++ '"' :: ':' :: ' ' ::
        ('0' :: '.' :: '5' :: ',' :: ' ' ::
          ('"' :: escapeChars ("confidence").data ++ '"' :: ':' :: ' ' ::
            ('0' :: '.' :: '4' :: ',' :: ' ' ::
              ('"' :: escapeChars ("insights").data ++ '"' :: ':' :: ' ' ::
                ('[' :: '"' :: escapeChars ("API error: Unable to analyze email").data ++ '"' :: ']' ::
                  ',' :: ' ' ::
                  ('"' :: escapeChars ("reasoning").data ++ '"' :: ':' :: ' ' ::
                    ('"' :: escapeChars (("Error: " ++ msg)).data ++ '"' :: ',' :: ' ' ::
                      ('"' :: escapeChars ("recommended_action").data ++ '"' :: ':' :: ' ' ::
                        ('"' :: escapeChars ("Please examine the email carefully").data ++ '"' :: '}' :: [])))))))))) := by
    simp [sentinelChars, jStr, escapeChars, escapeStr, List.cons_append, List.append_assoc]
  have top : parseF (f + 9) .val ('{' ::
      ('"' :: escapeChars ("phishing_likelihood").data ++ '"' :: ':' :: ' ' ::
        ('0' :: '.' :: '5' :: ',' :: ' ' ::
          ('"' :: escapeChars ("confidence").data ++ '"' :: ':' :: ' ' ::
            ('0' :: '.' :: '4' :: ',' :: ' ' ::
              ('"' :: escapeChars ("insights").data ++ '"' :: ':' :: ' ' ::
                ('[' :: '"' :: escapeChars ("API error: Unable to analyze email").data ++ '"' :: ']' ::
                  ',' :: ' ' ::
                  ('"' :: escapeChars ("reasoning").data ++ '"' :: ':' :: ' ' ::
                    ('"' :: escapeChars (("Error: " ++ msg)).data ++ '"' :: ',' :: ' ' ::
                      ('"' :: escapeChars ("recommended_action").data ++ '"' :: ':' :: ' ' ::
                        ('"' :: escapeChars ("Please examine the email carefully").data ++ '"' :: '}' :: []))))))))))) =
      (match parseF (f + 8) .members
        ('"' :: escapeChars ("phishing_likelihood").data ++ '"' :: ':' :: ' ' ::
        ('0' :: '.' :: '5' :: ',' :: ' ' ::
          ('"' :: escapeChars ("confidence").data ++ '"' :: ':' :: ' ' ::
            ('0' :: '.' :: '4' :: ',' :: ' ' ::
              ('"' :: escapeChars ("insights").data ++ '"' :: ':' :: ' ' ::
                ('[' :: '"' :: escapeChars ("API error: Unable to analyze email").data ++ '"' :: ']' ::
                  ',' :: ' ' ::
                  ('"' :: escapeChars ("reasoning").data ++ '"' :: ':' :: ' ' ::
                    ('"' :: escapeChars (("Error: " ++ msg)).data ++ '"' :: ',' :: ' ' ::
                      ('"' :: escapeChars ("recommended_action").data ++ '"' :: ':' :: ' ' ::
                        ('"' :: escapeChars ("Please examine the email carefully").data ++ '"' :: '}' :: [])))))))))) with
       | some (POut.pm ms, r) => some (POut.pv (JVal.obj ms), r)
       | _ => none) := rfl
  rw [hchars, top, m1]
  rfl

theorem jsonLoads_sentinel (msg : String) :
    jsonLoads (sentinelJson msg) = some (sentinelObj msg) := by
  have hlen : 4 ≤ (sentinelChars msg).length := by
    have h1 := length_le_escapeChars (("phishing_likelihood").data)
    simp only [sentinelChars, jStr, List.length_cons, List.length_append]
    simp at h1
    omega
  have heq : 2 * (sentinelJson msg).data.length + 2 =
      (2 * (sentinelChars msg).length - 7) + 9 := by
    have hdata : (sentinelJson msg).data = sentinelChars msg := rfl
    rw [hdata]
    omega
  unfold jsonLoads
  rw [heq]
  have hdata : (sentinelJson msg).data = sentinelChars msg := rfl
  rw [hdata, sentinel_parse]
  rfl

theorem retry_ok0 (gen : Nat → String → String → Except String String) (p s : String)
    (h0 : gen 0 (tierAt 0) p = .ok s) :
    call_gemini_with_retry gen p =
      { text := s, attemptsMade := 1, sleeps := [], used := [tierAt 0] } := by
  unfold call_gemini_with_retry MAX_RETRIES
  rw [retryAux, h0]

theorem retry_err0_ok1 (gen : Nat → String → String → Except String String) (p e0 s : String)
    (h0 : gen 0 (tierAt 0) p = .error e0) (h1 : gen 1 (tierAt 1) p = .ok s) :
    call_gemini_with_retry gen p =
      { text := s, attemptsMade := 2, sleeps := [if isRateLimited e0 then 2 else 1],
        used := [tierAt 0, tierAt 1] } := by
  unfold call_gemini_with_retry MAX_RETRIES
  rw [retryAux, h0]
  rw [retryAux, h1]
  by_cases hr : isRateLimited e0
  · simp [hr]
  · simp [hr, MAX_RETRIES]

theorem retry_err01_ok2 (gen : Nat → String → String → Except String String)
    (p e0 e1 s : String)
    (h0 : gen 0 (tierAt 0) p = .error e0) (h1 : gen 1 (tierAt 1) p = .error e1)
    (h2 : gen 2 (tierAt 2) p = .ok s) :
    call_gemini_with_retry gen p =
      { text := s, attemptsMade := 3,
        sleeps := [if isRateLimited e0 then 2 else 1, if isRateLimited e1 then 4 else 1],
        used := [tierAt 0, tierAt 1, tierAt 2] } := by
  unfold call_gemini_with_retry MAX_RETRIES
  rw [retryAux, h0]
  rw [retryAux, h1]
  rw [retryAux, h2]
  by_cases hr0 : isRateLimited e0 <;> by_cases hr1 : isRateLimited e1 <;>
    simp [hr0, hr1, MAX_RETRIES]

theorem retry_err012 (gen : Nat → String → String → Except String String)
    (p e0 e1 e2 : String)
    (h0 : gen 0 (tierAt 0) p = .error e0) (h1 : gen 1 (tierAt 1) p = .error e1)
    (h2 : gen 2 (tierAt 2) p = .error e2) :
    call_gemini_with_retry gen p =
      { text := if isRateLimited e2 then "\x7b\x7d" else sentinelJson e2
        attemptsMade := 3
        sleeps := [if isRateLimited e0 then 2 else 1, if isRateLimited e1 then 4 else 1] ++
          (if isRateLimited e2 then [6] else [])
        used := [tierAt 0, tierAt 1, tierAt 2] } := by
  unfold call_gemini_with_retry MAX_RETRIES
  rw [retryAux, h0]
  rw [retryAux, h1]
  rw [retryAux, h2]
  by_cases hr0 : isRateLimited e0 <;> by_cases hr1 : isRateLimited e1 <;>
    by_cases hr2 : isRateLimited e2 <;>
    simp [hr0, hr1, hr2, MAX_RETRIES, retryAux]

theorem retry_text_cases (gen : Nat → String → String → Except String String) (p : String) :
    (∃ i s, gen i (tierAt i) p = .ok s ∧ (call_gemini_with_retry gen p).text = s) ∨
    (∃ e, (call_gemini_with_retry gen p).text = sentinelJson e) ∨
    (call_gemini_with_retry gen p).text = "\x7b\x7d" := by
  rcases h0 : gen 0 (tierAt 0) p with e0 | s0
  · rcases h1 : gen 1 (tierAt 1) p with e1 | s1
    · rcases h2 : gen 2 (tierAt 2) p with e2 | s2
      · rw [retry_err012 gen p e0 e1 e2 h0 h1 h2]
        by_cases hr : isRateLimited e2
        · right
          right
          simp [hr]
        · right
          left
          exact ⟨e2, by simp [hr]⟩
      · left
        exact ⟨2, s2, h2, by rw [retry_err01_ok2 gen p e0 e1 s2 h0 h1 h2]⟩
    · left
      exact ⟨1, s1, h1, by rw [retry_err0_ok1 gen p e0 s1 h0 h1]⟩
  · left
    exact ⟨0, s0, h0, by rw [retry_ok0 gen p s0 h0]⟩

theorem assembleVerdict_timestamp (a : JVal) (v : Verdict)
    (h : assembleVerdict a = some v) : v.timestamp = fixedTimestamp := by
  unfold assembleVerdict at h
  split at h
  · split at h
    · simp only [Option.some_inj] at h
      rw [← h]
    · exact absurd h (by simp)
  · exact absurd h (by simp)

/-! ### Claim theorems -/

/-- C2: for empty or whitespace-only input, `analyze_email` returns exactly
the documented Error Verdict (risk level Suspicious, confidence 50.0, one
generic reason, a manual-review recommendation) with the state unchanged —
so no extraction, prompt rendering or remote call is performed, whatever
the oracle `gen` would do. -/
theorem C2_empty_input (hashFn : String → Int)
    (gen : Nat → String → String → Except String String) (st : DetState) (email : String)
    (h : pyStrip email = "") :
    analyze_email hashFn gen st email =
      (some { timestamp := "2025-03-07 14:05:36"
              risk_level := .SUSPICIOUS
              confidence := .fin 50
              reasons := .arr [.str "Error in analysis process"]
              recommended_action := .str "Manual review required"
              analysis := .str "Empty email text" }, st) := by
  simp [analyze_email, h, error_response, fixedTimestamp]

/-- Witness for C2 at a whitespace-only input. -/
theorem C2_empty_input_witness :
    pyStrip "  " = "" ∧
    analyze_email (fun _ => 0) (fun _ _ _ => .ok "x")
        { cache := [], apiCalls := 0, debug := false } "  " =
      (some { timestamp := "2025-03-07 14:05:36"
              risk_level := .SUSPICIOUS
              confidence := .fin 50
              reasons := .arr [.str "Error in analysis process"]
              recommended_action := .str "Manual review required"
              analysis := .str "Empty email text" },
        { cache := [], apiCalls := 0, debug := false }) :=
  ⟨by decide, C2_empty_input (fun _ => 0) (fun _ _ _ => .ok "x")
    { cache := [], apiCalls := 0, debug := false } "  " (by decide)⟩

/-- C10: every verdict produced by `analyze_email`, including the
empty-input Error Verdict, carries the fixed timestamp string
"2025-03-07 14:05:36", independent of input, oracle, and state. -/
theorem C10_timestamp (hashFn : String → Int)
    (gen : Nat → String → String → Except String String) (st : DetState) (email : String)
    (v : Verdict) (h : (analyze_email hashFn gen st email).1 = some v) :
    v.timestamp = "2025-03-07 14:05:36" := by
  by_cases he : email = "" ∨ pyStrip email = ""
  · simp only [analyze_email, if_pos he] at h
    simp only [Option.some_inj] at h
    rw [← h]
    rfl
  · simp only [analyze_email, if_neg he] at h
    rcases hc : List.lookup (hashFn (promptOf email)) st.cache with _ | cached <;>
      rcases hd : st.debug with _ | _ <;>
      simp only [hc, hd] at h <;>
      exact (assembleVerdict_timestamp _ _ h).trans rfl

/-- Witness for C10 at a concrete run (empty-input path). -/
theorem C10_timestamp_witness :
    (analyze_email (fun _ => 0) (fun _ _ _ => .ok "x")
        { cache := [], apiCalls := 0, debug := false } "").1 =
      some (error_response "Empty email text") ∧
    (error_response "Empty email text").timestamp = "2025-03-07 14:05:36" :=
  ⟨by with_unfolding_all rfl,
    C10_timestamp (fun _ => 0) (fun _ _ _ => .ok "x")
      { cache := [], apiCalls := 0, debug := false } "" _ (by with_unfolding_all rfl)⟩

/-- C8: the prompt builder renders the fixed template around the body; a
body longer than 5000 characters is replaced by exactly its first 5000
characters followed by the explicit truncation marker, and a body of at
most 5000 characters is embedded unchanged.  (The builder is a pure
function, so the rendered prompt is deterministic in the fields.) -/
theorem C8_prompt_truncation (s u b : String) :
    (5000 < b.data.length →
      build_prompt s u b =
        promptPre ++ s ++ promptMid1 ++ u ++ promptMid2 ++
          (String.mk (b.data.take 5000) ++ truncMarker) ++ promptTail) ∧
    (b.data.length ≤ 5000 →
      build_prompt s u b =
        promptPre ++ s ++ promptMid1 ++ u ++ promptMid2 ++ b ++ promptTail) := by
  constructor
  · intro h
    simp only [build_prompt, if_pos (by omega : b.data.length > 5000)]
  · intro h
    simp only [build_prompt, if_neg (by omega : ¬ b.data.length > 5000)]

/-- Witness for C8: a 6000-character body is truncated to its first 5000
characters plus the marker. -/
theorem C8_prompt_truncation_witness :
    5000 < (String.mk (List.replicate 6000 'a')).data.length ∧
    build_prompt "s@x" "hi" (String.mk (List.replicate 6000 'a')) =
      promptPre ++ "s@x" ++ promptMid1 ++ "hi" ++ promptMid2 ++
        (String.mk ((String.mk (List.replicate 6000 'a')).data.take 5000) ++ truncMarker) ++
        promptTail :=
  ⟨by show 5000 < (List.replicate 6000 'a').length
      rw [List.length_replicate]
      norm_num,
   (C8_prompt_truncation "s@x" "hi" (String.mk (List.replicate 6000 'a'))).1
     (by show 5000 < (List.replicate 6000 'a').length
         rw [List.length_replicate]
         norm_num)⟩

theorem strsOf_map_str (l : List String) : strsOf (l.map JVal.str) = some l := by
  induction l with
  | nil => rfl
  | cons c t ih =>
    simp only [List.map_cons, strsOf, ih]
    rfl

theorem foldl_boost (l : List String) (b : Rat) :
    l.foldl (fun acc i => if insightHasKeyword i then acc + (0.1 : Rat) else acc) b =
      b + (l.countP insightHasKeyword : Rat) * (0.1 : Rat) := by
  induction l generalizing b with
  | nil => simp
  | cons c t ih =>
    simp only [List.foldl_cons, List.countP_cons]
    by_cases hc : insightHasKeyword c
    · rw [if_pos hc, ih]
      simp only [hc, if_pos]
      push_cast
      ring
    · rw [if_neg hc, ih]
      simp [hc]

/-- C3: the risk scorer starts from the numeric phishing likelihood, adds
a flat 0.1 for each insight containing at least one danger keyword (at
most once per insight — the keyword loop breaks at the first match),
clamps the sum at 1, and maps the clamped score through the thresholds
0.35 and 0.65 with inclusive lower bounds: below 0.35 Safe, from 0.35 up
to but excluding 0.65 Suspicious, from 0.65 Dangerous. -/
theorem C3_risk_scorer (q : Rat) (ins : List String) :
    calc_risk_level (.obj [("phishing_likelihood", .num q),
                           ("insights", .arr (ins.map JVal.str))]) =
      some (if min (q + (ins.countP insightHasKeyword : Rat) * (0.1 : Rat)) 1 < (0.35 : Rat)
            then .SAFE
            else if min (q + (ins.countP insightHasKeyword : Rat) * (0.1 : Rat)) 1 < (0.65 : Rat)
            then .SUSPICIOUS
            else .DANGEROUS) := by
  unfold calc_risk_level
  simp +decide [dictGet, lookupLast, Option.getD, iterStrs, strsOf_map_str, pyNumeric]
  rw [foldl_boost]
  have h1 : (1.0 : Rat) = 1 := by norm_num
  rw [h1]

/-- C4 counterexample: after a rate-limited failure at attempt 0 the next
attempt uses the NEXT model tier ("gemini-1.5-flash"), not the same one —
tier selection depends only on the attempt index, so a rate-limited
failure does advance the tier preference, contrary to the claim. -/
theorem C4_counterexample :
    (call_gemini_with_retry
        (fun i _ _ => if i = 0 then .error "rate limit exceeded" else .ok "OK") "p") =
      { text := "OK", attemptsMade := 2, sleeps := [2],
        used := ["gemini-2.0-flash", "gemini-1.5-flash"] } ∧
    ("gemini-1.5-flash" : String) ≠ "gemini-2.0-flash" := by
  constructor
  · with_unfolding_all rfl
  · decide

/-- C4 (amended): attempt `i` (0-based, at most 3 attempts) selects
`models_to_try[min i 2]`; a rate-limited failure sleeps `(i+1)*2` seconds
before the next attempt and — like any other failure — the next attempt
moves on to the next tier, since tier choice depends only on the attempt
index; any other failure before the final attempt sleeps 1 second; if the
remote fails twice and then succeeds, the third attempt uses the second
fallback tier "gemini-1.0-pro" and the returned text is the success
response. -/
theorem C4_amended_retry (gen : Nat → String → String → Except String String) (p : String) :
    (tierAt 0 = "gemini-2.0-flash" ∧ tierAt 1 = "gemini-1.5-flash" ∧
      tierAt 2 = "gemini-1.0-pro" ∧ ∀ i, 2 ≤ i → tierAt i = "gemini-1.0-pro") ∧
    (∀ s, gen 0 (tierAt 0) p = .ok s →
      call_gemini_with_retry gen p =
        { text := s, attemptsMade := 1, sleeps := [], used := [tierAt 0] }) ∧
    (∀ e0 s, gen 0 (tierAt 0) p = .error e0 → gen 1 (tierAt 1) p = .ok s →
      call_gemini_with_retry gen p =
        { text := s, attemptsMade := 2, sleeps := [if isRateLimited e0 then 2 else 1],
          used := [tierAt 0, tierAt 1] }) ∧
    (∀ e0 e1 s, gen 0 (tierAt 0) p = .error e0 → gen 1 (tierAt 1) p = .error e1 →
      gen 2 (tierAt 2) p = .ok s →
      call_gemini_with_retry gen p =
        { text := s, attemptsMade := 3,
          sleeps := [if isRateLimited e0 then 2 else 1, if isRateLimited e1 then 4 else 1],
          used := [tierAt 0, tierAt 1, tierAt 2] }) := by
  refine ⟨⟨rfl, rfl, rfl, ?_⟩, ?_, ?_, ?_⟩
  · intro i hi
    unfold tierAt models_to_try
    have : min i 2 = 2 := by omega
    simp [this]
  · intro s h0
    exact retry_ok0 gen p s h0
  · intro e0 s h0 h1
    exact retry_err0_ok1 gen p e0 s h0 h1
  · intro e0 e1 s h0 h1 h2
    exact retry_err01_ok2 gen p e0 e1 s h0 h1 h2

/-- Witness for C4 (amended): a remote capability that fails twice and
then succeeds; the third attempt runs on the second fallback tier and the
success response is returned. -/
theorem C4_amended_retry_witness :
    ((fun i _ _ => if i < 2 then .error "boom" else .ok "GOOD") : Nat → String → String →
        Except String String) 0 (tierAt 0) "p" = .error "boom" ∧
    ((fun i _ _ => if i < 2 then .error "boom" else .ok "GOOD") : Nat → String → String →
        Except String String) 1 (tierAt 1) "p" = .error "boom" ∧
    ((fun i _ _ => if i < 2 then .error "boom" else .ok "GOOD") : Nat → String → String →
        Except String String) 2 (tierAt 2) "p" = .ok "GOOD" ∧
    call_gemini_with_retry
        (fun i _ _ => if i < 2 then .error "boom" else .ok "GOOD") "p" =
      { text := "GOOD", attemptsMade := 3, sleeps := [1, 1],
        used := ["gemini-2.0-flash", "gemini-1.5-flash", "gemini-1.0-pro"] } :=
  ⟨rfl, rfl, rfl,
    ((C4_amended_retry (fun i _ _ => if i < 2 then .error "boom" else .ok "GOOD") "p").2.2.2
        "boom" "boom" "GOOD" rfl rfl rfl).trans (by with_unfolding_all rfl)⟩

/-- C5 counterexample: when every attempt fails and the final failure is
rate-limited, the loop falls through and returns the literal text of an
empty JSON object — not the documented sentinel payload: it parses to the
empty object, whose confidence lookup falls back to the 0.5 default
rather than the sentinel value 0.4, and it contains no insight. -/
theorem C5_counterexample :
    (call_gemini_with_retry (fun _ _ _ => .error "rate limit") "p").text = "\x7b\x7d" ∧
    extract_json "\x7b\x7d" = .obj [] ∧
    dictGet (.obj []) "confidence" (.num 0.5) = some (.num 0.5) ∧
    dictGet (.obj []) "insights" (.arr []) = some (.arr []) ∧
    (0.5 : Rat) ≠ (0.4 : Rat) := by
  refine ⟨by with_unfolding_all rfl, by with_unfolding_all rfl, rfl, rfl, by norm_num⟩

/-- C5 (amended): whenever every attempt fails, the client never raises;
if the final failure is not rate-limited it returns the `json.dumps`
sentinel payload — phishing likelihood 0.5, confidence 0.4, a single
API-error insight, and the error text embedded in the reasoning field —
which the recoverer parses successfully on its first (direct-parse) pass;
if the final failure is rate-limited the loop instead falls through and
returns the text of an empty JSON object, which also parses on the first
pass (to the empty object, not the sentinel). -/
theorem C5_amended_sentinel (gen : Nat → String → String → Except String String)
    (p e0 e1 e2 : String)
    (h0 : gen 0 (tierAt 0) p = .error e0) (h1 : gen 1 (tierAt 1) p = .error e1)
    (h2 : gen 2 (tierAt 2) p = .error e2) :
    (isRateLimited e2 = false →
      (call_gemini_with_retry gen p).text = sentinelJson e2 ∧
      jsonLoads (sentinelJson e2) = some (sentinelObj e2) ∧
      extract_json (sentinelJson e2) = sentinelObj e2) ∧
    (isRateLimited e2 = true →
      (call_gemini_with_retry gen p).text = "\x7b\x7d" ∧
      jsonLoads ("\x7b\x7d") = some (.obj []) ∧
      extract_json ("\x7b\x7d") = .obj []) := by
  have hr := retry_err012 gen p e0 e1 e2 h0 h1 h2
  have hne : sentinelJson e2 ≠ "" := by
    intro hcontra
    have hlen := length_le_escapeChars (("phishing_likelihood").data)
    have : (sentinelJson e2).data = sentinelChars e2 := rfl
    rw [hcontra] at this
    have h0 : (sentinelChars e2).length = 0 := by
      rw [← this]
      rfl
    simp only [sentinelChars, jStr, List.length_cons, List.length_append] at h0
    omega
  constructor
  · intro hrl
    refine ⟨by rw [hr]; simp [hrl], jsonLoads_sentinel e2, ?_⟩
    unfold extract_json
    rw [if_neg hne, jsonLoads_sentinel e2]
  · intro hrl
    refine ⟨by rw [hr]; simp [hrl], by with_unfolding_all rfl, by with_unfolding_all rfl⟩

/-- Witness for C5 (amended): every attempt fails with a non-rate-limit
error; the sentinel is returned and parses directly. -/
theorem C5_amended_sentinel_witness :
    ((fun _ _ _ => .error "boom") : Nat → String → String → Except String String)
        0 (tierAt 0) "p" = .error "boom" ∧
    ((fun _ _ _ => .error "boom") : Nat → String → String → Except String String)
        1 (tierAt 1) "p" = .error "boom" ∧
    ((fun _ _ _ => .error "boom") : Nat → String → String → Except String String)
        2 (tierAt 2) "p" = .error "boom" ∧
    isRateLimited "boom" = false ∧
    ((call_gemini_with_retry (fun _ _ _ => .error "boom") "p").text = sentinelJson "boom" ∧
      jsonLoads (sentinelJson "boom") = some (sentinelObj "boom") ∧
      extract_json (sentinelJson "boom") = sentinelObj "boom") :=
  ⟨rfl, rfl, rfl, by decide,
    (C5_amended_sentinel (fun _ _ _ => .error "boom") "p" "boom" "boom" "boom"
      rfl rfl rfl).1 (by decide)⟩

/-- C6 counterexample: on the empty response text the recoverer returns
the empty object (`{}` from line 136), not the documented default
ParsedAnalysis — even though every recovery stage fails on it: the empty
object's confidence falls back to 0.5 while the default carries 0.3. -/
theorem C6_counterexample :
    jsonLoads "" = none ∧
    braceSub "" = none ∧
    extract_json "" = .obj [] ∧
    dictGet (.obj []) "confidence" (.num 0.5) = some (.num 0.5) ∧
    dictGet default_analysis "confidence" (.num 0.5) = some (.num 0.3) ∧
    (0.5 : Rat) ≠ (0.3 : Rat) := by
  refine ⟨by with_unfolding_all rfl, by with_unfolding_all rfl, by with_unfolding_all rfl,
    rfl, by with_unfolding_all rfl, by norm_num⟩

/-- C6 (amended): for every raw response text the recoverer is total and
applies, for non-empty text, exactly this order: (1) direct parse of the
whole text; (2) on failure, parse of the substring from the first opening
brace to the last closing brace; (3) on failure, reparse of that substring
after quoting bare identifier keys and converting single to double quotes;
(4) the default ParsedAnalysis when all fail — while the empty text
short-circuits to the empty object instead of the default.  Inputs with
bare keys and single-quoted strings parse into the equivalent structure. -/
theorem C6_amended_recoverer :
    (∀ t v, jsonLoads t = some v → extract_json t = v) ∧
    (∀ t s v, jsonLoads t = none → braceSub t = some s → jsonLoads s = some v →
      extract_json t = v) ∧
    (∀ t s v, jsonLoads t = none → braceSub t = some s → jsonLoads s = none →
      jsonLoads (repairJson s) = some v → extract_json t = v) ∧
    (∀ t, t ≠ "" → jsonLoads t = none → braceSub t = none →
      extract_json t = default_analysis) ∧
    (∀ t s, jsonLoads t = none → braceSub t = some s → jsonLoads s = none →
      jsonLoads (repairJson s) = none → extract_json t = default_analysis) ∧
    extract_json "" = .obj [] ∧
    extract_json tolerantExample =
      .obj [("phishing_likelihood", .num (4 / 5)), ("confidence", .num (9 / 10)),
            ("insights", .arr [.str "x"]), ("reasoning", .str "y"),
            ("recommended_action", .str "z")] := by
  have hemptyload : jsonLoads "" = none := by with_unfolding_all rfl
  refine ⟨?_, ?_, ?_, ?_, ?_, by with_unfolding_all rfl, by with_unfolding_all rfl⟩
  · intro t v h
    have hne : t ≠ "" := by
      intro he
      rw [he, hemptyload] at h
      exact absurd h (by simp)
    unfold extract_json
    rw [if_neg hne, h]
  · intro t s v h1 h2 h3
    have hne : t ≠ "" := by
      intro he
      rw [he] at h2
      exact absurd h2 (by with_unfolding_all simp [braceSub, firstIdx, lastIdx])
    unfold extract_json
    rw [if_neg hne]
    simp only [h1, h2, h3]
  · intro t s v h1 h2 h3 h4
    have hne : t ≠ "" := by
      intro he
      rw [he] at h2
      exact absurd h2 (by with_unfolding_all simp [braceSub, firstIdx, lastIdx])
    unfold extract_json
    rw [if_neg hne]
    simp only [h1, h2, h3, h4]
  · intro t hne h1 h2
    unfold extract_json
    rw [if_neg hne]
    simp only [h1, h2]
  · intro t s h1 h2 h3 h4
    have hne : t ≠ "" := by
      intro he
      rw [he] at h2
      exact absurd h2 (by with_unfolding_all simp [braceSub, firstIdx, lastIdx])
    unfold extract_json
    rw [if_neg hne]
    simp only [h1, h2, h3, h4]

/-- Witness for C6 (amended): one concrete input per recovery stage. -/
theorem C6_amended_recoverer_witness :
    (jsonLoads "true" = some (.bool true) ∧ extract_json "true" = .bool true) ∧
    (jsonLoads "x \x7b\"a\": 1\x7d" = none ∧
      braceSub "x \x7b\"a\": 1\x7d" = some ("\x7b\"a\": 1\x7d") ∧
      jsonLoads ("\x7b\"a\": 1\x7d") = some (.obj [("a", .num 1)]) ∧
      extract_json "x \x7b\"a\": 1\x7d" = .obj [("a", .num 1)]) ∧
    (jsonLoads "x \x7ba: 1\x7d" = none ∧
      braceSub "x \x7ba: 1\x7d" = some ("\x7ba: 1\x7d") ∧
      jsonLoads ("\x7ba: 1\x7d") = none ∧
      jsonLoads (repairJson ("\x7ba: 1\x7d")) = some (.obj [("a", .num 1)]) ∧
      extract_json "x \x7ba: 1\x7d" = .obj [("a", .num 1)]) ∧
    (("x" : String) ≠ "" ∧ jsonLoads "x" = none ∧ braceSub "x" = none ∧
      extract_json "x" = default_analysis) ∧
    (jsonLoads "\x7b]\x7d" = none ∧ braceSub "\x7b]\x7d" = some ("\x7b]\x7d") ∧
      jsonLoads (repairJson ("\x7b]\x7d")) = none ∧
      extract_json "\x7b]\x7d" = default_analysis) := by
  refine ⟨⟨by with_unfolding_all rfl, ?_⟩,
          ⟨by with_unfolding_all rfl, by with_unfolding_all rfl, by with_unfolding_all rfl, ?_⟩,
          ⟨by with_unfolding_all rfl, by with_unfolding_all rfl, by with_unfolding_all rfl,
            by with_unfolding_all rfl, ?_⟩,
          ⟨by decide, by with_unfolding_all rfl, by with_unfolding_all rfl, ?_⟩,
          ⟨by with_unfolding_all rfl, by with_unfolding_all rfl, by with_unfolding_all rfl, ?_⟩⟩
  · exact C6_amended_recoverer.1 "true" (.bool true) (by with_unfolding_all rfl)
  · exact C6_amended_recoverer.2.1 "x \x7b\"a\": 1\x7d" ("\x7b\"a\": 1\x7d") (.obj [("a", .num 1)])
      (by with_unfolding_all rfl) (by with_unfolding_all rfl) (by with_unfolding_all rfl)
  · exact C6_amended_recoverer.2.2.1 "x \x7ba: 1\x7d" ("\x7ba: 1\x7d") (.obj [("a", .num 1)])
      (by with_unfolding_all rfl) (by with_unfolding_all rfl) (by with_unfolding_all rfl)
      (by with_unfolding_all rfl)
  · exact C6_amended_recoverer.2.2.2.1 "x" (by decide) (by with_unfolding_all rfl)
      (by with_unfolding_all rfl)
  · exact C6_amended_recoverer.2.2.2.2.1 "\x7b]\x7d" ("\x7b]\x7d")
      (by with_unfolding_all rfl) (by with_unfolding_all rfl) (by with_unfolding_all rfl)
      (by with_unfolding_all rfl)

theorem findPat_spec (pat : List Char) :
    ∀ (l : List Char) (i : Nat), findPat pat l = some i →
      prefixCI pat (l.drop i) = true ∧ ∀ j, j < i → prefixCI pat (l.drop j) = false := by
  intro l
  induction l with
  | nil =>
    intro i h
    unfold findPat at h
    split at h
    · next hp =>
      simp only [Option.some_inj] at h
      subst h
      exact ⟨hp, fun j hj => absurd hj (by omega)⟩
    · exact absurd h (by simp)
  | cons c rest ih =>
    intro i h
    unfold findPat at h
    split at h
    · next hp =>
      simp only [Option.some_inj] at h
      subst h
      exact ⟨hp, fun j hj => absurd hj (by omega)⟩
    · next hp =>
      rcases hfind : findPat pat rest with _ | i2
      · rw [hfind] at h
        exact absurd h (by simp)
      · rw [hfind] at h
        simp at h
        subst h
        obtain ⟨hpre, hmin⟩ := ih i2 hfind
        refine ⟨hpre, ?_⟩
        intro j hj
        cases j with
        | zero =>
          simpa using Bool.eq_false_iff.mpr hp
        | succ j2 =>
          simp only [List.drop_succ_cons]
          exact hmin j2 (by omega)

/-- C7 counterexample: the header regexes are not line-anchored — a
`From:` occurring mid-line is matched (sender "a@b" instead of the
"unknown" a line-anchored match would give) — and on header-free input
the body is the raw text unchanged, not trimmed. -/
theorem C7_counterexample :
    extract_email_parts "x From: a@b\ny" = ("a@b", "unknown", "y") ∧
    ("a@b" : String) ≠ "unknown" ∧
    extract_email_parts "  hi  " = ("unknown", "unknown", "  hi  ") ∧
    ("  hi  " : String) ≠ pyStrip "  hi  " := by
  refine ⟨by with_unfolding_all rfl, by decide, by with_unfolding_all rfl, by decide⟩

/-- C7 (amended): sender and subject come from the first case-insensitive
occurrence of "from:" / "subject:" anywhere in the text (the match is not
anchored to line starts), defaulting to "unknown" when absent; when
neither header matches, the body is the entire input unchanged (not
trimmed); the spec's positive example extracts as documented. -/
theorem C7_amended_extractor :
    (∀ pat l i, findPat pat l = some i →
      prefixCI pat (l.drop i) = true ∧ ∀ j, j < i → prefixCI pat (l.drop j) = false) ∧
    (∀ raw, findPat ("from:".data) raw.data = none →
      (extract_email_parts raw).1 = "unknown") ∧
    (∀ raw, findPat ("subject:".data) raw.data = none →
      (extract_email_parts raw).2.1 = "unknown") ∧
    (∀ raw, findPat ("from:".data) raw.data = none →
      findPat ("subject:".data) raw.data = none →
      (extract_email_parts raw).2.2 = raw) ∧
    extract_email_parts "From: a@b.com\nSubject: Hi\nBody text" =
      ("a@b.com", "Hi", "Body text") := by
  refine ⟨findPat_spec, ?_, ?_, ?_, by with_unfolding_all rfl⟩
  · intro raw h
    simp [extract_email_parts, headerMatch, h]
  · intro raw h
    simp [extract_email_parts, headerMatch, h]
  · intro raw h1 h2
    simp [extract_email_parts, headerMatch, h1, h2]

/-- Witness for C7 (amended): the mid-line occurrence is found at index 2
with no earlier match, and a header-free input keeps its body untrimmed. -/
theorem C7_amended_extractor_witness :
    (findPat ("from:".data) ("x From: a@b".data) = some 2 ∧
      prefixCI ("from:".data) (("x From: a@b".data).drop 2) = true ∧
      ∀ j, j < 2 → prefixCI ("from:".data) (("x From: a@b".data).drop j) = false) ∧
    (findPat ("from:".data) ("  hi  ".data) = none ∧
      findPat ("subject:".data) ("  hi  ".data) = none ∧
      (extract_email_parts "  hi  ").2.2 = "  hi  ") := by
  refine ⟨⟨by with_unfolding_all rfl, ?_, ?_⟩, ⟨by with_unfolding_all rfl,
    by with_unfolding_all rfl, ?_⟩⟩
  · exact (C7_amended_extractor.1 ("from:".data) ("x From: a@b".data) 2
      (by with_unfolding_all rfl)).1
  · exact (C7_amended_extractor.1 ("from:".data) ("x From: a@b".data) 2
      (by with_unfolding_all rfl)).2
  · exact C7_amended_extractor.2.2.2.1 "  hi  " (by with_unfolding_all rfl)
      (by with_unfolding_all rfl)

theorem lookup_cacheInsert (k : Int) (v : String) (c : List (Int × String)) :
    List.lookup k (cacheInsert k v c) = some v := by
  induction c with
  | nil => simp [cacheInsert, List.lookup]
  | cons p rest ih =>
    by_cases hk : p.1 = k
    · simp [cacheInsert, hk, List.lookup]
    · simp only [cacheInsert]
      rw [if_neg (by exact fun h => hk h)]
      simp only [List.lookup]
      have : (k == p.1) = false := by
        simp
        exact fun h => hk h.symm
      rw [this]
      exact ih

theorem mem_keys_cacheInsert (k x : Int) (v : String) (c : List (Int × String))
    (h : x ∈ (cacheInsert k v c).map Prod.fst) : x ∈ c.map Prod.fst ∨ x = k := by
  induction c with
  | nil =>
    simp [cacheInsert] at h
    right
    exact h
  | cons p rest ih =>
    by_cases hk : p.1 = k
    · simp [cacheInsert, hk] at h
      rcases h with h | h
      · right
        exact h
      · left
        simp [h]
    · simp only [cacheInsert, if_neg (fun h2 => hk h2), List.map_cons, List.mem_cons] at h
      rcases h with h | h
      · left
        simp [h]
      · rcases ih h with h2 | h2
        · left
          simp [h2]
        · right
          exact h2

theorem nodup_cacheInsert (k : Int) (v : String) (c : List (Int × String))
    (h : (c.map Prod.fst).Nodup) : ((cacheInsert k v c).map Prod.fst).Nodup := by
  induction c with
  | nil => simp [cacheInsert]
  | cons p rest ih =>
    simp only [List.map_cons, List.nodup_cons] at h
    by_cases hk : p.1 = k
    · simp only [cacheInsert, if_pos hk, List.map_cons, List.nodup_cons]
      exact ⟨by rw [← hk]; exact h.1, h.2⟩
    · simp only [cacheInsert, if_neg (fun h2 => hk h2), List.map_cons, List.nodup_cons]
      refine ⟨?_, ih h.2⟩
      intro hmem
      rcases mem_keys_cacheInsert k p.1 v rest hmem with h2 | h2
      · exact h.1 h2
      · exact hk h2

/-- C9 counterexample: with the debug flag set, the cache read is skipped,
so a second call with an identical prompt invokes the remote capability a
second time (the api-call counter reaches 2). -/
theorem C9_counterexample :
    (analyze_email (fun _ => 0) (fun _ _ _ => .ok "resp")
      { cache := [], apiCalls := 0, debug := true } "hello").2.apiCalls = 1 ∧
    (analyze_email (fun _ => 0) (fun _ _ _ => .ok "resp")
      ((analyze_email (fun _ => 0) (fun _ _ _ => .ok "resp")
        { cache := [], apiCalls := 0, debug := true } "hello").2) "hello").2.apiCalls = 2 := by
  exact ⟨by with_unfolding_all rfl, by with_unfolding_all rfl⟩

/-- C9 (amended): with debug off, a second `analyze_email` call whose
rendered prompt equals the first call's leaves the state untouched — it is
served from the cache and the remote capability is not invoked again; when
the prompt is not yet cached and the first remote attempt succeeds, the
whole pair of calls invokes the capability exactly once; and the cache
never holds two entries for the same key. -/
theorem C9_amended_cache (hashFn : String → Int)
    (gen1 gen2 : Nat → String → String → Except String String)
    (st : DetState) (e1 e2 : String)
    (hdbg : st.debug = false)
    (h1 : pyStrip e1 ≠ "") (h2 : pyStrip e2 ≠ "")
    (hp : promptOf e1 = promptOf e2) :
    ((analyze_email hashFn gen2 (analyze_email hashFn gen1 st e1).2 e2).2 =
      (analyze_email hashFn gen1 st e1).2) ∧
    (List.lookup (hashFn (promptOf e1)) st.cache = none →
      ∀ s, gen1 0 (tierAt 0) (promptOf e1) = .ok s →
      (analyze_email hashFn gen1 st e1).2.apiCalls = st.apiCalls + 1) ∧
    (∀ (st2 : DetState) (e : String), ((st2.cache.map Prod.fst).Nodup) →
      (((analyze_email hashFn gen1 st2 e).2.cache.map Prod.fst).Nodup)) := by
  have hne1 : ¬ (e1 = "" ∨ pyStrip e1 = "") := by
    rintro (h | h)
    · exact h1 (by rw [h]; rfl)
    · exact h1 h
  have hne2 : ¬ (e2 = "" ∨ pyStrip e2 = "") := by
    rintro (h | h)
    · exact h2 (by rw [h]; rfl)
    · exact h2 h
  refine ⟨?_, ?_, ?_⟩
  · rcases hc : List.lookup (hashFn (promptOf e1)) st.cache with _ | cached
    · -- miss: first call inserts, second call hits
      have hst1 : (analyze_email hashFn gen1 st e1).2 =
          { cache := cacheInsert (hashFn (promptOf e1))
              (call_gemini_with_retry gen1 (promptOf e1)).text st.cache
            apiCalls := st.apiCalls +
              (call_gemini_with_retry gen1 (promptOf e1)).attemptsMade
            debug := st.debug } := by
        simp only [analyze_email, if_neg hne1, hc, hdbg]
      rw [hst1]
      simp only [analyze_email, if_neg hne2, ← hp, hdbg, lookup_cacheInsert]
    · -- hit: first call leaves the state unchanged, second hits again
      have hst1 : (analyze_email hashFn gen1 st e1).2 = st := by
        simp only [analyze_email, if_neg hne1, hc, hdbg]
      rw [hst1]
      simp only [analyze_email, if_neg hne2, ← hp, hc, hdbg]
  · intro hc s hok
    simp only [analyze_email, if_neg hne1, hc, hdbg]
    rw [retry_ok0 gen1 (promptOf e1) s hok]
  · intro st2 e hnd
    by_cases he : e = "" ∨ pyStrip e = ""
    · simp only [analyze_email, if_pos he]
      exact hnd
    · simp only [analyze_email, if_neg he]
      rcases hc : List.lookup (hashFn (promptOf e)) st2.cache with _ | cached <;>
        rcases hd : st2.debug with _ | _ <;> simp only [hc, hd]
      · exact nodup_cacheInsert _ _ _ hnd
      · exact nodup_cacheInsert _ _ _ hnd
      · exact hnd
      · exact nodup_cacheInsert _ _ _ hnd

/-- Witness for C9 (amended): two calls with the same email on a fresh
non-debug detector; the second leaves the state untouched and the pair
makes exactly one remote invocation. -/
theorem C9_amended_cache_witness :
    ({ cache := [], apiCalls := 0, debug := false } : DetState).debug = false ∧
    pyStrip "hello" ≠ "" ∧
    promptOf "hello" = promptOf "hello" ∧
    List.lookup ((fun _ => (0 : Int)) (promptOf "hello"))
      ({ cache := [], apiCalls := 0, debug := false } : DetState).cache = none ∧
    ((fun _ _ _ => .ok "resp") : Nat → String → String → Except String String)
      0 (tierAt 0) (promptOf "hello") = .ok "resp" ∧
    ((analyze_email (fun _ => 0) (fun _ _ _ => .ok "resp")
        (analyze_email (fun _ => 0) (fun _ _ _ => .ok "resp")
          { cache := [], apiCalls := 0, debug := false } "hello").2 "hello").2 =
      (analyze_email (fun _ => 0) (fun _ _ _ => .ok "resp")
        { cache := [], apiCalls := 0, debug := false } "hello").2) ∧
    (analyze_email (fun _ => 0) (fun _ _ _ => .ok "resp")
      { cache := [], apiCalls := 0, debug := false } "hello").2.apiCalls = 0 + 1 := by
  have h := C9_amended_cache (fun _ => 0) (fun _ _ _ => .ok "resp") (fun _ _ _ => .ok "resp")
    { cache := [], apiCalls := 0, debug := false } "hello" "hello" rfl
    (by decide) (by decide) rfl
  exact ⟨rfl, by decide, rfl, rfl, rfl, h.1, h.2.1 rfl "resp" rfl⟩

theorem wf_assemble (a : JVal) (h : wfParsed a = true) :
    ∃ v, assembleVerdict a = some v ∧
      (∃ q, v.confidence = .fin q ∧ 0 ≤ q ∧ q ≤ 100) ∧
      (v.risk_level = .SAFE ∨ v.risk_level = .SUSPICIOUS ∨ v.risk_level = .DANGEROUS) := by
  cases a with
  | obj kvs =>
    simp only [wfParsed, Bool.and_eq_true] at h
    obtain ⟨⟨hnum, hins⟩, hconf⟩ := h
    obtain ⟨q, hq⟩ := Option.isSome_iff_exists.mp hnum
    have hcalc : (calc_risk_level (.obj kvs)).isSome := by
      rcases hv : (lookupLast "insights" kvs).getD (.arr []) with _ | b | qq | s | xs | kvs2 <;>
        rw [hv] at hins
      · exact absurd hins (by simp)
      · exact absurd hins (by simp)
      · exact absurd hins (by simp)
      · simp [calc_risk_level, dictGet, hv, hq, iterStrs]
      · obtain ⟨L, hL⟩ := Option.isSome_iff_exists.mp hins
        simp [calc_risk_level, dictGet, hv, hq, iterStrs, hL]
      · exact absurd hins (by simp)
    obtain ⟨rl, hrl⟩ := Option.isSome_iff_exists.mp hcalc
    have hslice : (slice5 ((lookupLast "insights" kvs).getD (.arr []))).isSome := by
      rcases hv : (lookupLast "insights" kvs).getD (.arr []) with _ | b | qq | s | xs | kvs2 <;>
        rw [hv] at hins
      · exact absurd hins (by simp)
      · exact absurd hins (by simp)
      · exact absurd hins (by simp)
      · simp [slice5]
      · simp [slice5]
      · exact absurd hins (by simp)
    obtain ⟨rs, hrs⟩ := Option.isSome_iff_exists.mp hslice
    refine ⟨{ timestamp := fixedTimestamp
              risk_level := rl
              confidence := format_confidence ((lookupLast "confidence" kvs).getD (.num 0.5))
              reasons := rs
              recommended_action :=
                (lookupLast "recommended_action" kvs).getD (.str "Review email carefully")
              analysis := (lookupLast "reasoning" kvs).getD (.str "") }, ?_, ?_, ?_⟩
    · simp only [assembleVerdict, dictGet, hrl, hrs]
    · rcases hfc : pyFloatConv ((lookupLast "confidence" kvs).getD (.num 0.5)) with _ | pf
      · exact ⟨50, by simp only [format_confidence, hfc], by norm_num, by norm_num⟩
      · rcases pf with q2 | b | _
        · rw [hfc] at hconf
          simp only [Bool.and_eq_true, decide_eq_true_eq] at hconf
          refine ⟨q2 * 100, by simp only [format_confidence, hfc], ?_, ?_⟩
          · exact mul_nonneg hconf.1 (by norm_num)
          · nlinarith [hconf.2]
        · rw [hfc] at hconf
          exact absurd hconf (by simp)
        · rw [hfc] at hconf
          exact absurd hconf (by simp)
    · cases rl
      · left
        rfl
      · right
        left
        rfl
      · right
        right
        rfl
  | null => exact absurd h (by simp [wfParsed])
  | bool b => exact absurd h (by simp [wfParsed])
  | num q => exact absurd h (by simp [wfParsed])
  | str s => exact absurd h (by simp [wfParsed])
  | arr xs => exact absurd h (by simp [wfParsed])

theorem lookup_mem (k : Int) (v : String) (l : List (Int × String))
    (h : List.lookup k l = some v) : (k, v) ∈ l := by
  induction l with
  | nil => simp [List.lookup] at h
  | cons p rest ih =>
    rw [List.lookup] at h
    rcases hb : (k == p.1) with _ | _
    · rw [hb] at h
      exact List.mem_cons_of_mem _ (ih h)
    · rw [hb] at h
      simp only [Option.some_inj] at h
      have hk : k = p.1 := by
        simpa using hb
      have hp : (k, v) = p := by
        obtain ⟨p1, p2⟩ := p
        simp only [] at h hk
        rw [hk, ← h]
      rw [hp]
      exact List.mem_cons_self _ _

theorem extract_json_sentinel (e : String) :
    extract_json (sentinelJson e) = sentinelObj e := by
  have hne : sentinelJson e ≠ "" := by
    intro hcontra
    have : (sentinelJson e).data = sentinelChars e := rfl
    rw [hcontra] at this
    have h0 : (sentinelChars e).length = 0 := by
      rw [← this]
      rfl
    simp only [sentinelChars, jStr, List.length_cons, List.length_append] at h0
    omega
  unfold extract_json
  rw [if_neg hne, jsonLoads_sentinel e]

theorem wf_sentinel (e : String) : wfParsed (sentinelObj e) = true := by
  with_unfolding_all rfl

theorem wf_emptyobj : wfParsed (extract_json ("\x7b\x7d")) = true := by
  with_unfolding_all rfl

/-- C1 counterexample: the pipeline is not total and the confidence is not
bounded.  A remote response "null" parses to a non-dict, so `.get` raises
and `analyze_email` propagates the failure; a response with confidence 2
yields a verdict confidence of 200, a string confidence "1_0" (a float
literal with a PEP 515 underscore separator, value 10.0) yields 1000, and
a string confidence "inf" yields positive infinity — all outside
[0,100]. -/
theorem C1_counterexample :
    (analyze_email (fun _ => 0) (fun _ _ _ => .ok "null")
      { cache := [], apiCalls := 0, debug := false } "hello").1 = none ∧
    Option.map Verdict.confidence
      (analyze_email (fun _ => 0) (fun _ _ _ => .ok ("\x7b\"confidence\": 2\x7d"))
        { cache := [], apiCalls := 0, debug := false } "hello").1 = some (.fin 200) ∧
    Option.map Verdict.confidence
      (analyze_email (fun _ => 0) (fun _ _ _ => .ok ("\x7b\"confidence\": \"1_0\"\x7d"))
        { cache := [], apiCalls := 0, debug := false } "hello").1 = some (.fin 1000) ∧
    Option.map Verdict.confidence
      (analyze_email (fun _ => 0) (fun _ _ _ => .ok ("\x7b\"confidence\": \"inf\"\x7d"))
        { cache := [], apiCalls := 0, debug := false } "hello").1 = some (.inf false) ∧
    pyStrip "hello" ≠ "" ∧
    ¬ ((200 : Rat) ≤ 100) ∧ ¬ ((1000 : Rat) ≤ 100) := by
  refine ⟨by with_unfolding_all rfl, by with_unfolding_all rfl, by with_unfolding_all rfl,
    by with_unfolding_all rfl, by decide, by norm_num, by norm_num⟩

/-- C1 (amended): for every non-empty email text the pipeline returns a
verdict — whose risk level is one of the three enumeration values and
whose confidence lies in [0,100] — provided every remote response and
every cached response recovers to a well-formed analysis (a dict whose
likelihood is numeric, whose insights iterate and slice as strings, and
whose confidence converts — by Python float() semantics, including PEP 515
underscores and inf/nan literals — to a finite value in [0,1], or fails to
convert); a non-convertible or missing model confidence defaults to 50.0.
(Without the well-formedness proviso the pipeline can propagate a failure
and the confidence is unbounded, as the counterexample shows.) -/
theorem C1_amended_pipeline (hashFn : String → Int)
    (gen : Nat → String → String → Except String String) (st : DetState) (email : String)
    (hne : pyStrip email ≠ "")
    (hgen : ∀ i m p s, gen i m p = .ok s → wfParsed (extract_json s) = true)
    (hcache : ∀ kv ∈ st.cache, wfParsed (extract_json kv.2) = true) :
    (∃ v, (analyze_email hashFn gen st email).1 = some v ∧
      (∃ q, v.confidence = .fin q ∧ 0 ≤ q ∧ q ≤ 100) ∧
      (v.risk_level = .SAFE ∨ v.risk_level = .SUSPICIOUS ∨ v.risk_level = .DANGEROUS)) ∧
    (∀ c, pyFloatConv c = none → format_confidence c = .fin 50) ∧
    format_confidence (.num 0.5) = .fin 50 := by
  have hne1 : ¬ (email = "" ∨ pyStrip email = "") := by
    rintro (h | h)
    · exact hne (by rw [h]; rfl)
    · exact hne h
  have hwfretry : wfParsed (extract_json (call_gemini_with_retry gen (promptOf email)).text)
      = true := by
    rcases retry_text_cases gen (promptOf email) with ⟨i, s, hok, htext⟩ | ⟨e, htext⟩ | htext
    · rw [htext]
      exact hgen i (tierAt i) (promptOf email) s hok
    · rw [htext, extract_json_sentinel]
      exact wf_sentinel e
    · rw [htext]
      exact wf_emptyobj
  refine ⟨?_, ?_, by norm_num [format_confidence, pyFloatConv]⟩
  · rcases hc : List.lookup (hashFn (promptOf email)) st.cache with _ | cached <;>
      rcases hd : st.debug with _ | _ <;>
      simp only [analyze_email, if_neg hne1, hc, hd]
    · exact wf_assemble _ hwfretry
    · exact wf_assemble _ hwfretry
    · exact wf_assemble _ (hcache _ (lookup_mem _ _ _ hc))
    · exact wf_assemble _ hwfretry
  · intro c h
    simp [format_confidence, h]

/-- Witness for C1 (amended): a fresh detector whose remote oracle always
returns a well-formed analysis with confidence 0.9. -/
theorem C1_amended_pipeline_witness :
    pyStrip "hello" ≠ "" ∧
    wfParsed (extract_json ("\x7b\"confidence\": 0.9\x7d")) = true ∧
    ((∃ v, (analyze_email (fun _ => 0)
          (fun _ _ _ => .ok ("\x7b\"confidence\": 0.9\x7d"))
          { cache := [], apiCalls := 0, debug := false } "hello").1 = some v ∧
        (∃ q, v.confidence = .fin q ∧ 0 ≤ q ∧ q ≤ 100) ∧
        (v.risk_level = .SAFE ∨ v.risk_level = .SUSPICIOUS ∨ v.risk_level = .DANGEROUS)) ∧
      (∀ c, pyFloatConv c = none → format_confidence c = .fin 50) ∧
      format_confidence (.num 0.5) = .fin 50) :=
  ⟨by decide, by with_unfolding_all rfl,
    C1_amended_pipeline (fun _ => 0) (fun _ _ _ => .ok ("\x7b\"confidence\": 0.9\x7d"))
      { cache := [], apiCalls := 0, debug := false } "hello" (by decide)
      (fun i m p s h => by
        have hs : ("\x7b\"confidence\": 0.9\x7d" : String) = s := Except.ok.inj h
        rw [← hs]
        with_unfolding_all rfl)
      (fun kv hkv => absurd hkv (List.not_mem_nil _))⟩
